import Mathlib

set_option maxRecDepth 8192

/-!
Verification development for the transport_system repository.

The Python sources under src are embedded shallowly: every interactive menu
operation becomes a pure function from a store and a list of operator input
strings to an optional outcome and successor store (the option is none exactly
when the modelled input list runs out, which has no counterpart in the real
blocking read loop).  Monetary amounts (Python float) are modelled as rational
numbers; calendar dates as year, month, day triples ordered by their numeric
key.  SQLite constraint checks performed at commit time are modelled by
explicit per-statement validators; SQLAlchemy ORM cascade and nullify rules on
delete are modelled by the corresponding list transformations, executed in the
same atomic transition.
-/

/-! ## String primitives

Python string operations are re-implemented over the underlying character
list so that every definition evaluates by kernel reduction.  Unicode corner
cases are out of scope: the menus compare ASCII tokens only.
-/

/-- Whitespace test used by Python str.strip for the characters that can
actually occur in terminal input. -/
def isSpaceChar (c : Char) : Bool :=
  c == ' ' || c == '\t' || c == '\n' || c == '\r'

/-- Python str.strip on a character list. -/
def stripChars (l : List Char) : List Char :=
  ((l.dropWhile isSpaceChar).reverse.dropWhile isSpaceChar).reverse

/-- Python str.strip. -/
def pyStrip (s : String) : String :=
  String.mk (stripChars s.data)

/-- ASCII lower-casing of one character, as Python str.lower does on ASCII. -/
def lowerChar (c : Char) : Char :=
  if 'A' ≤ c ∧ c ≤ 'Z' then Char.ofNat (c.toNat + 32) else c

/-- Python str.lower, ASCII fragment. -/
def pyLower (s : String) : String :=
  String.mk (s.data.map lowerChar)

/-- ASCII upper-casing of one character. -/
def upperChar (c : Char) : Char :=
  if 'a' ≤ c ∧ c ≤ 'z' then Char.ofNat (c.toNat - 32) else c

/-- Python str.upper, ASCII fragment. -/
def pyUpper (s : String) : String :=
  String.mk (s.data.map upperChar)

/-- Nonempty all-digit test: Python str.isdigit restricted to ASCII digits. -/
def isDigits (l : List Char) : Bool :=
  !l.isEmpty && l.all Char.isDigit

/-- Python str.isdigit. -/
def pyIsdigit (s : String) : Bool :=
  isDigits s.data

/-- Numeric value of a digit list, most significant first. -/
def digitsVal (l : List Char) : Nat :=
  l.foldl (fun n c => n * 10 + (c.toNat - 48)) 0

/-- Numeric value of an all-digit string. -/
def digitsNat (s : String) : Nat :=
  digitsVal s.data

/-- Split a character list on a separator character, Python str.split with a
one-character separator. -/
def splitOnChar (sep : Char) : List Char → List (List Char)
  | [] => [[]]
  | c :: rest =>
    if c == sep then
      [] :: splitOnChar sep rest
    else
      match splitOnChar sep rest with
      | [] => [[c]]
      | h :: t => (c :: h) :: t

/-- Python int(s): optional sign followed by digits, surrounding whitespace
ignored.  Underscore separators are not modelled; no menu input uses them. -/
def pyInt? (s : String) : Option Int :=
  let t := stripChars s.data
  match t with
  | '-' :: rest => if isDigits rest then some (-(digitsVal rest : Int)) else none
  | '+' :: rest => if isDigits rest then some ((digitsVal rest : Int)) else none
  | _ => if isDigits t then some ((digitsVal t : Int)) else none

/-- Python float(s) on plain decimal literals: optional sign, digits, optional
decimal point.  Scientific notation, inf and nan are not modelled; no claim
depends on them. -/
def pyFloat? (s : String) : Option ℚ :=
  let t := stripChars s.data
  let signed : ℚ × List Char :=
    match t with
    | '-' :: rest => (-1, rest)
    | '+' :: rest => (1, rest)
    | _ => (1, t)
  match splitOnChar '.' signed.2 with
  | [a] => if isDigits a then some (signed.1 * (digitsVal a : ℚ)) else none
  | [a, b] =>
    if (a.isEmpty || isDigits a) && (b.isEmpty || isDigits b) && !(a.isEmpty && b.isEmpty) then
      some (signed.1 * ((digitsVal a : ℚ) + (digitsVal b : ℚ) / ((10 : ℚ) ^ b.length)))
    else none
  | _ => none

/-! ## Dates -/

/-- A calendar date as parsed from a YYYY-MM-DD string.  Month and day ranges
are checked at parse time; the per-month day count of the Python calendar is
approximated by the bound 31, which no claim depends on. -/
structure PyDate where
  y : Nat
  m : Nat
  d : Nat
deriving DecidableEq

/-- Numeric key giving the calendar order of dates. -/
def PyDate.key (dt : PyDate) : Nat :=
  dt.y * 10000 + dt.m * 100 + dt.d

/-- Parse a YYYY-MM-DD date string, as datetime.strptime with format
%Y-%m-%d does in utils/helpers.py is_date. -/
def parseDate? (s : String) : Option PyDate :=
  match splitOnChar '-' s.data with
  | [ys, ms, ds] =>
    if ys.length == 4 && isDigits ys && isDigits ms && ms.length ≤ 2
        && isDigits ds && ds.length ≤ 2 then
      let m := digitsVal ms
      let d := digitsVal ds
      if 1 ≤ m && m ≤ 12 && 1 ≤ d && d ≤ 31 then
        some ⟨digitsVal ys, m, d⟩
      else none
    else none
  | _ => none

/-- Zero-padded numeral of fixed width. -/
def padNum (width n : Nat) : String :=
  let s := Nat.repr n
  String.mk (List.replicate (width - s.length) '0' ++ s.data)

/-- Python str(date), the ISO format YYYY-MM-DD. -/
def formatDate (dt : PyDate) : String :=
  String.mk ((padNum 4 dt.y).data ++ '-' :: (padNum 2 dt.m).data ++ '-' :: (padNum 2 dt.d).data)

/-! ## Validation helpers from utils/helpers.py -/

/-- is_date from utils/helpers.py: the string parses in YYYY-MM-DD format. -/
def is_date (s : String) : Bool :=
  (parseDate? s).isSome

/-- is_numeric from utils/helpers.py: float(value) succeeds. -/
def is_numeric (s : String) : Bool :=
  (pyFloat? s).isSome

/-- is_non_negative_number from utils/helpers.py. -/
def is_non_negative_number (s : String) : Bool :=
  match pyFloat? s with
  | some v => decide (0 ≤ v)
  | none => false

/-- is_integer from utils/helpers.py: int(value) succeeds. -/
def is_integer (s : String) : Bool :=
  (pyInt? s).isSome

/-- is_non_negative_integer from utils/helpers.py. -/
def is_non_negative_integer (s : String) : Bool :=
  match pyInt? s with
  | some v => decide (0 ≤ v)
  | none => false

/-- is_phone_number from utils/helpers.py: an optional leading plus sign, then
at least one character drawn from digits, spaces, hyphens and parentheses, and
at least seven characters once spaces, hyphens and parentheses are removed. -/
def is_phone_number (s : String) : Bool :=
  let body := match s.data with
    | '+' :: rest => rest
    | l => l
  let strippable := fun c => c == ' ' || c == '-' || c == '(' || c == ')'
  !body.isEmpty && body.all (fun c => c.isDigit || strippable c)
    && 7 ≤ (s.data.filter (fun c => !strippable c)).length

/-- Result of one prompt read: the operator either cancelled or supplied a
value that passed validation. -/
inductive ReadOut where
  | cancelled
  | value (s : String)
deriving DecidableEq

/-- get_valid_input from utils/helpers.py: strip the input, treat cancel or
exit in any letter case as cancellation, re-prompt while the validation
function is falsy, otherwise return the stripped input.  The Python truthiness
of each call site validation lambda is encoded in the Bool function passed
here.  Returns none exactly when the modelled input list is exhausted, which
has no counterpart in the real blocking loop. -/
def get_valid_input (valid : String → Bool) : List String → Option (ReadOut × List String)
  | [] => none
  | i :: rest =>
    let user_input := pyStrip i
    if pyLower user_input == "cancel" || pyLower user_input == "exit" then
      some (.cancelled, rest)
    else if !valid user_input then
      get_valid_input valid rest
    else
      some (.value user_input, rest)

/-- confirm_action from utils/helpers.py: one read, stripped and lowered,
compared with y. -/
def confirm_action : List String → Option (Bool × List String)
  | [] => none
  | i :: rest => some (pyLower (pyStrip i) == "y", rest)

/-! ## Data model from db_models.py -/

/-- academic_years table. -/
structure AcademicYear where
  id : Nat
  name : String
  start_date : PyDate
  end_date : PyDate
deriving DecidableEq

/-- terms table.  The academic_year_id foreign key column is nullable in the
schema, though every create path supplies a year. -/
structure Term where
  id : Nat
  name : String
  start_date : PyDate
  end_date : PyDate
  academic_year_id : Option Nat
deriving DecidableEq

/-- drivers table. -/
structure Driver where
  id : Nat
  name : String
  phone : String
  license_number : Option String
  assigned : Bool
deriving DecidableEq

/-- attendants table. -/
structure Attendant where
  id : Nat
  name : String
  phone : String
deriving DecidableEq

/-- buses table. -/
structure Bus where
  id : Nat
  bus_name : String
  plate_number : Option String
  capacity : Option Int
  driver_id : Option Nat
  attendant_id : Option Nat
deriving DecidableEq

/-- students table. -/
structure Student where
  id : Nat
  name : String
  parent_contact : Option String
  address : Option String
  bus_id : Option Nat
  monthly_rate : ℚ
  is_active : Bool
deriving DecidableEq

/-- payments table.  The student and term foreign keys are nullable columns in
the schema, but the single create path always supplies both, so they are
carried as plain numbers. -/
structure Payment where
  id : Nat
  student_id : Nat
  term_id : Nat
  week_number : Option Nat
  amount_paid : ℚ
  balance_carried : ℚ
  payment_date : PyDate
deriving DecidableEq

/-- The persistent store: one list per table, plus the current date used for
the payment_date default. -/
structure Store where
  academic_years : List AcademicYear
  terms : List Term
  drivers : List Driver
  attendants : List Attendant
  buses : List Bus
  students : List Student
  payments : List Payment
  today : PyDate
deriving DecidableEq

/-- A store with empty tables. -/
def emptyStore (today : PyDate) : Store :=
  ⟨[], [], [], [], [], [], [], today⟩

/-- Fresh primary key for an insert, one past the largest id in use. -/
def nextId (ids : List Nat) : Nat :=
  ids.foldl max 0 + 1

/-! ## Constraint checks performed by the store at commit time

SQLite enforces the CHECK and UNIQUE constraints declared in db_models.py on
each inserted or updated row.  Foreign keys are not enforced (the pragma is
never enabled), and the cascade and nullify rules are executed by the ORM in
Python, which the delete operations below model directly.  SQL UNIQUE treats
null values as distinct from everything.
-/

/-- Equality of two optional numbers for SQL UNIQUE purposes: null never
conflicts. -/
def someEqNat : Option Nat → Option Nat → Bool
  | some a, some b => a == b
  | _, _ => false

/-- Equality of two optional strings for SQL UNIQUE purposes. -/
def someEqStr : Option String → Option String → Bool
  | some a, some b => a == b
  | _, _ => false

/-- CHECK constraints of the payments table: amount_paid and balance_carried
non-negative, week_number null or in 1 to 20. -/
def paymentRowOk (p : Payment) : Bool :=
  decide (0 ≤ p.amount_paid) && decide (0 ≤ p.balance_carried) &&
  (match p.week_number with
   | none => true
   | some w => decide (1 ≤ w) && decide (w ≤ 20))

/-- UNIQUE (student_id, term_id, week_number) conflict between two rows. -/
def paymentSqlConflict (p q : Payment) : Bool :=
  p.student_id == q.student_id && p.term_id == q.term_id
    && someEqNat p.week_number q.week_number

/-- Store check for inserting a payment row. -/
def paymentInsertOk (tbl : List Payment) (p : Payment) : Bool :=
  paymentRowOk p && tbl.all (fun q => !paymentSqlConflict q p)

/-- Store check for updating a payment row in place. -/
def paymentUpdateOk (tbl : List Payment) (p : Payment) : Bool :=
  paymentRowOk p && tbl.all (fun q => q.id == p.id || !paymentSqlConflict q p)

/-- CHECK constraint of the academic_years table. -/
def yearRowOk (y : AcademicYear) : Bool :=
  decide (y.start_date.key < y.end_date.key)

/-- Store check for inserting an academic year: dates ordered, name unique. -/
def yearInsertOk (tbl : List AcademicYear) (y : AcademicYear) : Bool :=
  yearRowOk y && tbl.all (fun z => !(z.name == y.name))

/-- Store check for updating an academic year in place. -/
def yearUpdateOk (tbl : List AcademicYear) (y : AcademicYear) : Bool :=
  yearRowOk y && tbl.all (fun z => z.id == y.id || !(z.name == y.name))

/-- CHECK constraint of the terms table. -/
def termRowOk (t : Term) : Bool :=
  decide (t.start_date.key < t.end_date.key)

/-- Store check for inserting a term: dates ordered, name unique per year. -/
def termInsertOk (tbl : List Term) (t : Term) : Bool :=
  termRowOk t && tbl.all (fun u =>
    !(u.name == t.name && someEqNat u.academic_year_id t.academic_year_id))

/-- Store check for updating a term in place. -/
def termUpdateOk (tbl : List Term) (t : Term) : Bool :=
  termRowOk t && tbl.all (fun u => u.id == t.id ||
    !(u.name == t.name && someEqNat u.academic_year_id t.academic_year_id))

/-- CHECK constraint of the buses table: capacity non-negative when present
(a null capacity passes the SQL check). -/
def busRowOk (b : Bus) : Bool :=
  match b.capacity with
  | none => true
  | some c => decide (0 ≤ c)

/-- Store check for inserting a bus: capacity check, bus_name and
plate_number unique. -/
def busInsertOk (tbl : List Bus) (b : Bus) : Bool :=
  busRowOk b && tbl.all (fun c =>
    !(c.bus_name == b.bus_name) && !someEqStr c.plate_number b.plate_number)

/-- Store check for updating a bus in place. -/
def busUpdateOk (tbl : List Bus) (b : Bus) : Bool :=
  busRowOk b && tbl.all (fun c => c.id == b.id ||
    (!(c.bus_name == b.bus_name) && !someEqStr c.plate_number b.plate_number))

/-- Store check for inserting a driver: license_number unique when present. -/
def driverInsertOk (tbl : List Driver) (d : Driver) : Bool :=
  tbl.all (fun e => !someEqStr e.license_number d.license_number)

/-- Store check for updating a driver in place. -/
def driverUpdateOk (tbl : List Driver) (d : Driver) : Bool :=
  tbl.all (fun e => e.id == d.id || !someEqStr e.license_number d.license_number)

/-- CHECK constraint of the students table: monthly_rate non-negative. -/
def studentRowOk (s : Student) : Bool :=
  decide (0 ≤ s.monthly_rate)

/-! ## Operation outcomes -/

/-- Reasons an operation returns to the menu without committing. -/
inductive ErrCode where
  | emptyTable
  | invalidId
  | notFound
  | badWeek
  | duplicatePayment
  | badAmount
  | dateOrder
  | notConfirmed
deriving DecidableEq

/-- How one menu operation ends: a committed write, a cancellation, a
validation message, a store error caught and rolled back, or an exception
escaping the menu function. -/
inductive Outcome where
  | ok
  | cancelled
  | err (code : ErrCode)
  | dbError
  | raised
deriving DecidableEq

/-- After one operation, src/main.py either keeps the menu loop running or,
when an exception escaped the menus, reports a fatal error at the outermost
handler and exits the process via sys.exit (main.py lines 99 to 104). -/
inductive ControlFlow where
  | menu
  | exited
deriving DecidableEq

/-- Dispatch of an operation outcome by the top level of src/main.py. -/
def control_after (e : Outcome) : ControlFlow :=
  match e with
  | .raised => .exited
  | _ => .menu

/-! ## Payments menu, menus/payments.py -/

/-- The week check from add_payment line 129: Python reads
if week_number and (week_number < 1 or week_number > 20), so a parsed zero is
falsy and slips past the menu check. -/
def weekTruthyOutOfRange : Option Nat → Bool
  | none => false
  | some n => !(n == 0) && (decide (n < 1) || decide (n > 20))

/-- add_payment from menus/payments.py lines 66 to 174.  Four raw reads:
student id, term id, optional week number, amount paid.  The week entry is
taken as a number only when it is a nonempty digit string, anything else
falls back to a general payment with a null week.  The commit is guarded:
a store error is caught and rolled back. -/
def add_payment (st : Store) (inputs : List String) : Option (Outcome × Store) :=
  if st.students.isEmpty then some (.err .emptyTable, st) else
  match inputs with
  | [] => none
  | i1 :: inputs =>
    match pyInt? (pyStrip i1) with
    | none => some (.err .invalidId, st)
    | some student_id =>
      match st.students.find? (fun s => (s.id : Int) == student_id) with
      | none => some (.err .notFound, st)
      | some student =>
        if st.terms.isEmpty then some (.err .emptyTable, st) else
        match inputs with
        | [] => none
        | i2 :: inputs =>
          match pyInt? (pyStrip i2) with
          | none => some (.err .invalidId, st)
          | some term_id =>
            match st.terms.find? (fun t => (t.id : Int) == term_id) with
            | none => some (.err .notFound, st)
            | some term =>
              match inputs with
              | [] => none
              | i3 :: inputs =>
                let week_input := pyStrip i3
                let week_number : Option Nat :=
                  if !week_input.data.isEmpty && pyIsdigit week_input then
                    some (digitsNat week_input)
                  else none
                if weekTruthyOutOfRange week_number then some (.err .badWeek, st) else
                match st.payments.find? (fun p =>
                    (p.student_id : Int) == student_id && (p.term_id : Int) == term_id
                      && p.week_number == week_number) with
                | some _ => some (.err .duplicatePayment, st)
                | none =>
                  match inputs with
                  | [] => none
                  | i4 :: _ =>
                    match pyFloat? (pyStrip i4) with
                    | none => some (.err .badAmount, st)
                    | some amount_paid =>
                      if amount_paid < 0 then some (.err .badAmount, st) else
                      let balance_carried := max 0 (student.monthly_rate - amount_paid)
                      let p : Payment :=
                        ⟨nextId (st.payments.map (·.id)), student.id, term.id,
                          week_number, amount_paid, balance_carried, st.today⟩
                      if paymentInsertOk st.payments p then
                        some (.ok, { st with payments := st.payments ++ [p] })
                      else some (.dbError, st)

/-- update_payment from menus/payments.py lines 180 to 241.  Two raw reads:
payment id and the new amount.  A blank amount keeps every field and the
commit writes nothing; a supplied amount is validated non-negative and the
balance is recomputed from the owning student monthly rate.  A payment whose
student row is gone would raise an attribute error outside any handler. -/
def update_payment (st : Store) (inputs : List String) : Option (Outcome × Store) :=
  if st.payments.isEmpty then some (.err .emptyTable, st) else
  match inputs with
  | [] => none
  | i1 :: inputs =>
    match pyInt? (pyStrip i1) with
    | none => some (.err .invalidId, st)
    | some payment_id =>
      match st.payments.find? (fun p => (p.id : Int) == payment_id) with
      | none => some (.err .notFound, st)
      | some payment =>
        match inputs with
        | [] => none
        | i2 :: _ =>
          let amount_input := pyStrip i2
          if amount_input.data.isEmpty then some (.ok, st)
          else
            match pyFloat? amount_input with
            | none => some (.err .badAmount, st)
            | some new_amount =>
              if new_amount < 0 then some (.err .badAmount, st) else
              match st.students.find? (fun s => s.id == payment.student_id) with
              | none => some (.raised, st)
              | some student =>
                let payment2 :=
                  { payment with
                      amount_paid := new_amount,
                      balance_carried := max 0 (student.monthly_rate - new_amount) }
                if paymentUpdateOk st.payments payment2 then
                  some (.ok, { st with
                    payments := st.payments.map (fun q => if q.id == payment.id then payment2 else q) })
                else some (.dbError, st)

/-- delete_payment from menus/payments.py lines 247 to 294.  Two raw reads:
payment id and the DELETE confirmation keyword. -/
def delete_payment (st : Store) (inputs : List String) : Option (Outcome × Store) :=
  if st.payments.isEmpty then some (.err .emptyTable, st) else
  match inputs with
  | [] => none
  | i1 :: inputs =>
    match pyInt? (pyStrip i1) with
    | none => some (.err .invalidId, st)
    | some payment_id =>
      match st.payments.find? (fun p => (p.id : Int) == payment_id) with
      | none => some (.err .notFound, st)
      | some payment =>
        match inputs with
        | [] => none
        | i2 :: _ =>
          if !(pyUpper (pyStrip i2) == "DELETE") then some (.err .notConfirmed, st)
          else
            some (.ok, { st with
              payments := st.payments.filter (fun p => !(p.id == payment.id)) })

/-! ## Academic years menu, menus/academic_years.py

The commits of this module are not wrapped in any try block: a store error at
commit propagates out of the menu function, reaching the top level handler of
src/main.py.
-/

/-- Truthiness of the name validation lambda x.strip() shared by the add
operations. -/
def vNonempty (x : String) : Bool :=
  !(pyStrip x).data.isEmpty

/-- add_academic_year from menus/academic_years.py lines 44 to 89. -/
def add_academic_year (st : Store) (inputs : List String) : Option (Outcome × Store) :=
  match get_valid_input vNonempty inputs with
  | none => none
  | some (.cancelled, _) => some (.cancelled, st)
  | some (.value name, inputs1) =>
    match get_valid_input is_date inputs1 with
    | none => none
    | some (.cancelled, _) => some (.cancelled, st)
    | some (.value start_str, inputs2) =>
      match get_valid_input is_date inputs2 with
      | none => none
      | some (.cancelled, _) => some (.cancelled, st)
      | some (.value end_str, _) =>
        match parseDate? start_str, parseDate? end_str with
        | some start_date, some end_date =>
          if end_date.key ≤ start_date.key then some (.err .dateOrder, st)
          else
            let y : AcademicYear :=
              ⟨nextId (st.academic_years.map (·.id)), name, start_date, end_date⟩
            if yearInsertOk st.academic_years y then
              some (.ok, { st with academic_years := st.academic_years ++ [y] })
            else some (.raised, st)
        | _, _ => some (.raised, st)

/-- edit_academic_year from menus/academic_years.py lines 95 to 161.  The
Python or-expressions that substitute the current values swallow the None a
cancel produces at the name and date prompts, so the edit continues there
instead of aborting. -/
def edit_academic_year (st : Store) (inputs : List String) : Option (Outcome × Store) :=
  if st.academic_years.isEmpty then some (.err .emptyTable, st) else
  match get_valid_input
      (fun x => pyIsdigit x && st.academic_years.any (fun y => y.id == digitsNat x)) inputs with
  | none => none
  | some (.cancelled, _) => some (.cancelled, st)
  | some (.value yid_str, inputs1) =>
    match st.academic_years.find? (fun y => y.id == digitsNat yid_str) with
    | none => some (.err .notFound, st)
    | some year =>
      match get_valid_input
          (fun x => !(pyStrip x).data.isEmpty || !year.name.data.isEmpty) inputs1 with
      | none => none
      | some (r1, inputs2) =>
        let new_name :=
          match r1 with
          | .cancelled => year.name
          | .value v => if v.data.isEmpty then year.name else v
        match get_valid_input is_date inputs2 with
        | none => none
        | some (r2, inputs3) =>
          let new_start :=
            match r2 with
            | .cancelled => formatDate year.start_date
            | .value v => v
          match get_valid_input is_date inputs3 with
          | none => none
          | some (r3, _) =>
            let new_end :=
              match r3 with
              | .cancelled => formatDate year.end_date
              | .value v => v
            match parseDate? new_start, parseDate? new_end with
            | some start_date, some end_date =>
              if end_date.key ≤ start_date.key then some (.err .dateOrder, st)
              else
                let year2 :=
                  { year with name := new_name, start_date := start_date, end_date := end_date }
                if yearUpdateOk st.academic_years year2 then
                  some (.ok, { st with
                    academic_years := st.academic_years.map
                      (fun z => if z.id == year.id then year2 else z) })
                else some (.raised, st)
            | _, _ => some (.raised, st)

/-- delete_academic_year from menus/academic_years.py lines 167 to 211.  The
ORM cascade removes the terms of the year and the payments of those terms in
the same flush as the year row itself. -/
def delete_academic_year (st : Store) (inputs : List String) : Option (Outcome × Store) :=
  if st.academic_years.isEmpty then some (.err .emptyTable, st) else
  match get_valid_input
      (fun x => pyIsdigit x && st.academic_years.any (fun y => y.id == digitsNat x)) inputs with
  | none => none
  | some (.cancelled, _) => some (.cancelled, st)
  | some (.value yid_str, inputs1) =>
    match st.academic_years.find? (fun y => y.id == digitsNat yid_str) with
    | none => some (.err .notFound, st)
    | some year =>
      match confirm_action inputs1 with
      | none => none
      | some (false, _) => some (.err .notConfirmed, st)
      | some (true, _) =>
        let deadTerms := st.terms.filter (fun t => t.academic_year_id == some year.id)
        some (.ok, { st with
          academic_years := st.academic_years.filter (fun z => !(z.id == year.id)),
          terms := st.terms.filter (fun t => !(t.academic_year_id == some year.id)),
          payments := st.payments.filter
            (fun p => !(deadTerms.any (fun t => t.id == p.term_id))) })

/-! ## Terms menu, menus/terms.py

As in the academic years module, the commits here are unguarded.
-/

/-- add_term from menus/terms.py lines 42 to 111. -/
def add_term (st : Store) (inputs : List String) : Option (Outcome × Store) :=
  if st.academic_years.isEmpty then some (.err .emptyTable, st) else
  match get_valid_input
      (fun x => pyIsdigit x && st.academic_years.any (fun y => y.id == digitsNat x)) inputs with
  | none => none
  | some (.cancelled, _) => some (.cancelled, st)
  | some (.value yid_str, inputs1) =>
    match st.academic_years.find? (fun y => y.id == digitsNat yid_str) with
    | none => some (.err .notFound, st)
    | some year =>
      match get_valid_input vNonempty inputs1 with
      | none => none
      | some (.cancelled, _) => some (.cancelled, st)
      | some (.value name, inputs2) =>
        match get_valid_input is_date inputs2 with
        | none => none
        | some (.cancelled, _) => some (.cancelled, st)
        | some (.value start_str, inputs3) =>
          match get_valid_input is_date inputs3 with
          | none => none
          | some (.cancelled, _) => some (.cancelled, st)
          | some (.value end_str, _) =>
            match parseDate? start_str, parseDate? end_str with
            | some start_date, some end_date =>
              if end_date.key ≤ start_date.key then some (.err .dateOrder, st)
              else
                let t : Term :=
                  ⟨nextId (st.terms.map (·.id)), name, start_date, end_date, some year.id⟩
                if termInsertOk st.terms t then
                  some (.ok, { st with terms := st.terms ++ [t] })
                else some (.raised, st)
            | _, _ => some (.raised, st)

/-- Shared tail of edit_term: build the updated row and commit unguarded,
menus/terms.py lines 199 to 203. -/
def edit_term_commit (st : Store) (term : Term) (new_name : String)
    (start_date end_date : PyDate) (yid : Option Nat) : Option (Outcome × Store) :=
  let term2 :=
    { term with
        name := new_name, start_date := start_date, end_date := end_date,
        academic_year_id := yid }
  if termUpdateOk st.terms term2 then
    some (.ok, { st with
      terms := st.terms.map (fun u => if u.id == term.id then term2 else u) })
  else some (.raised, st)

/-- Reassignment stage of edit_term, menus/terms.py lines 179 to 199: the
optional move to another academic year, honoured cancels, then the commit. -/
def edit_term_reassign (st : Store) (term : Term) (new_name : String)
    (start_date end_date : PyDate) (inputs : List String) : Option (Outcome × Store) :=
  match get_valid_input
      (fun x => pyLower x == "y" || pyLower x == "n" || x.data.isEmpty) inputs with
  | none => none
  | some (.cancelled, _) => some (.cancelled, st)
  | some (.value rv, inputs1) =>
    if pyLower rv == "y" then
      match get_valid_input
          (fun x => pyIsdigit x
            && st.academic_years.any (fun y => y.id == digitsNat x)) inputs1 with
      | none => none
      | some (.cancelled, _) => some (.cancelled, st)
      | some (.value ys, _) =>
        match st.academic_years.find? (fun y => y.id == digitsNat ys) with
        | none => some (.err .notFound, st)
        | some new_year =>
          edit_term_commit st term new_name start_date end_date (some new_year.id)
    else
      edit_term_commit st term new_name start_date end_date term.academic_year_id

/-- edit_term from menus/terms.py lines 117 to 206.  Name and date prompts
swallow a cancel into the current values, the reassignment prompts honour it. -/
def edit_term (st : Store) (inputs : List String) : Option (Outcome × Store) :=
  if st.terms.isEmpty then some (.err .emptyTable, st) else
  match get_valid_input
      (fun x => pyIsdigit x && st.terms.any (fun t => t.id == digitsNat x)) inputs with
  | none => none
  | some (.cancelled, _) => some (.cancelled, st)
  | some (.value tid_str, inputs1) =>
    match st.terms.find? (fun t => t.id == digitsNat tid_str) with
    | none => some (.err .notFound, st)
    | some term =>
      match get_valid_input
          (fun x => !(pyStrip x).data.isEmpty || !term.name.data.isEmpty) inputs1 with
      | none => none
      | some (r1, inputs2) =>
        let new_name :=
          match r1 with
          | .cancelled => term.name
          | .value v => if v.data.isEmpty then term.name else v
        match get_valid_input is_date inputs2 with
        | none => none
        | some (r2, inputs3) =>
          let new_start :=
            match r2 with
            | .cancelled => formatDate term.start_date
            | .value v => v
          match get_valid_input is_date inputs3 with
          | none => none
          | some (r3, inputs4) =>
            let new_end :=
              match r3 with
              | .cancelled => formatDate term.end_date
              | .value v => v
            match parseDate? new_start, parseDate? new_end with
            | some start_date, some end_date =>
              if end_date.key ≤ start_date.key then some (.err .dateOrder, st)
              else
                edit_term_reassign st term new_name start_date end_date inputs4
            | _, _ => some (.raised, st)

/-- delete_term from menus/terms.py lines 212 to 253.  The ORM cascade
removes the payments of the term in the same flush. -/
def delete_term (st : Store) (inputs : List String) : Option (Outcome × Store) :=
  if st.terms.isEmpty then some (.err .emptyTable, st) else
  match get_valid_input
      (fun x => pyIsdigit x && st.terms.any (fun t => t.id == digitsNat x)) inputs with
  | none => none
  | some (.cancelled, _) => some (.cancelled, st)
  | some (.value tid_str, inputs1) =>
    match st.terms.find? (fun t => t.id == digitsNat tid_str) with
    | none => some (.err .notFound, st)
    | some term =>
      match confirm_action inputs1 with
      | none => none
      | some (false, _) => some (.err .notConfirmed, st)
      | some (true, _) =>
        some (.ok, { st with
          terms := st.terms.filter (fun t => !(t.id == term.id)),
          payments := st.payments.filter (fun p => !(p.term_id == term.id)) })

/-! ## Buses menu, menus/buses.py -/

/-- Replace the bus with the given id by the supplied object: the in-session
view of the store after attribute assignments on one loaded bus. -/
def withBus (st : Store) (b : Bus) : Store :=
  { st with buses := st.buses.map (fun c => if c.id == b.id then b else c) }

/-- add_bus from menus/buses.py lines 48 to 112.  The plate number is never
prompted for and stays null.  The commit is guarded by a bare except with
rollback. -/
def add_bus (st : Store) (inputs : List String) : Option (Outcome × Store) :=
  match get_valid_input vNonempty inputs with
  | none => none
  | some (.cancelled, _) => some (.cancelled, st)
  | some (.value name, inputs1) =>
    match get_valid_input is_non_negative_integer inputs1 with
    | none => none
    | some (.cancelled, _) => some (.cancelled, st)
    | some (.value cap_str, inputs2) =>
      match pyInt? cap_str with
      | none => some (.raised, st)
      | some capacity =>
        let driverStep : Option (ReadOut × List String) :=
          if st.drivers.isEmpty then some (.value "", inputs2)
          else get_valid_input
            (fun x => x.data.isEmpty
              || (pyIsdigit x && st.drivers.any (fun d => d.id == digitsNat x))) inputs2
        match driverStep with
        | none => none
        | some (.cancelled, _) => some (.cancelled, st)
        | some (.value dv, inputs3) =>
          let driver_id : Option Nat :=
            if dv.data.isEmpty then none
            else (st.drivers.find? (fun d => d.id == digitsNat dv)).map (·.id)
          let attendantStep : Option (ReadOut × List String) :=
            if st.attendants.isEmpty then some (.value "", inputs3)
            else get_valid_input
              (fun x => x.data.isEmpty
                || (pyIsdigit x && st.attendants.any (fun a => a.id == digitsNat x))) inputs3
          match attendantStep with
          | none => none
          | some (.cancelled, _) => some (.cancelled, st)
          | some (.value av, _) =>
            let attendant_id : Option Nat :=
              if av.data.isEmpty then none
              else (st.attendants.find? (fun a => a.id == digitsNat av)).map (·.id)
            let b : Bus :=
              ⟨nextId (st.buses.map (·.id)), name, none, some capacity, driver_id, attendant_id⟩
            if busInsertOk st.buses b then
              some (.ok, { st with buses := st.buses ++ [b] })
            else some (.dbError, st)

/-- Commit step of update_bus, menus/buses.py line 198: on success the session
state is flushed, on a store error the session is rolled back, so committed
and in-memory state coincide in both cases. -/
def update_bus_commit (st : Store) (bus4 : Bus) : Option (Outcome × Store × Store) :=
  if busUpdateOk st.buses bus4 then
    some (.ok, withBus st bus4, withBus st bus4)
  else some (.dbError, st, st)

/-- Attendant reassignment section of update_bus, menus/buses.py lines 184 to
196, followed by the commit.  A cancel here returns from inside the try block
without rollback: the mutations already made to the bus object stay pending in
the session while the committed store is untouched. -/
def update_bus_attendant (st : Store) (bus3 : Bus) (inputs : List String)
    : Option (Outcome × Store × Store) :=
  if st.attendants.isEmpty then update_bus_commit st bus3
  else
    match get_valid_input
        (fun x => x.data.isEmpty
          || (pyIsdigit x && st.attendants.any (fun a => a.id == digitsNat x))) inputs with
    | none => none
    | some (.cancelled, _) => some (.cancelled, st, withBus st bus3)
    | some (.value av, _) =>
      let bus4 :=
        if av.data.isEmpty then bus3
        else
          match st.attendants.find? (fun a => a.id == digitsNat av) with
          | some a => { bus3 with attendant_id := some a.id }
          | none => bus3
      update_bus_commit st bus4

/-- Driver reassignment section of update_bus, menus/buses.py lines 170 to
182, followed by the attendant section. -/
def update_bus_driver (st : Store) (bus2 : Bus) (inputs : List String)
    : Option (Outcome × Store × Store) :=
  if st.drivers.isEmpty then update_bus_attendant st bus2 inputs
  else
    match get_valid_input
        (fun x => x.data.isEmpty
          || (pyIsdigit x && st.drivers.any (fun d => d.id == digitsNat x))) inputs with
    | none => none
    | some (.cancelled, _) => some (.cancelled, st, withBus st bus2)
    | some (.value dv, inputs1) =>
      let bus3 :=
        if dv.data.isEmpty then bus2
        else
          match st.drivers.find? (fun d => d.id == digitsNat dv) with
          | some d => { bus2 with driver_id := some d.id }
          | none => bus2
      update_bus_attendant st bus3 inputs1

/-- update_bus from menus/buses.py lines 118 to 205.  Returns the outcome, the
committed store and the in-session store: the name and capacity fields of the
selected bus are assigned inside the try block before the driver and attendant
prompts are read, so a cancel at those prompts leaves the assignments pending
in the session.  The name prompt swallows a cancel into the current name. -/
def update_bus (st : Store) (inputs : List String) : Option (Outcome × Store × Store) :=
  if st.buses.isEmpty then some (.err .emptyTable, st, st) else
  match get_valid_input
      (fun x => pyIsdigit x && st.buses.any (fun b => b.id == digitsNat x)) inputs with
  | none => none
  | some (.cancelled, _) => some (.cancelled, st, st)
  | some (.value bid_str, inputs1) =>
    match st.buses.find? (fun b => b.id == digitsNat bid_str) with
    | none => some (.err .notFound, st, st)
    | some bus =>
      match get_valid_input
          (fun x => !(pyStrip x).data.isEmpty || !bus.bus_name.data.isEmpty) inputs1 with
      | none => none
      | some (r1, inputs2) =>
        let new_name :=
          match r1 with
          | .cancelled => bus.bus_name
          | .value v => if v.data.isEmpty then bus.bus_name else v
        match get_valid_input is_non_negative_integer inputs2 with
        | none => none
        | some (.cancelled, _) => some (.cancelled, st, st)
        | some (.value cap_str, inputs3) =>
          match pyInt? cap_str with
          | none => some (.raised, st, st)
          | some new_capacity =>
            let bus1 := if !(new_name == bus.bus_name) then { bus with bus_name := new_name } else bus
            let bus2 :=
              if !(some new_capacity == bus.capacity) then { bus1 with capacity := some new_capacity }
              else bus1
            update_bus_driver st bus2 inputs3

/-- delete_bus from menus/buses.py lines 211 to 254.  The students relationship
has no cascade, so the ORM clears bus_id on the students of the bus in the same
flush as the delete. -/
def delete_bus (st : Store) (inputs : List String) : Option (Outcome × Store) :=
  if st.buses.isEmpty then some (.err .emptyTable, st) else
  match get_valid_input
      (fun x => pyIsdigit x && st.buses.any (fun b => b.id == digitsNat x)) inputs with
  | none => none
  | some (.cancelled, _) => some (.cancelled, st)
  | some (.value bid_str, inputs1) =>
    match st.buses.find? (fun b => b.id == digitsNat bid_str) with
    | none => some (.err .notFound, st)
    | some bus =>
      match confirm_action inputs1 with
      | none => none
      | some (false, _) => some (.err .notConfirmed, st)
      | some (true, _) =>
        some (.ok, { st with
          buses := st.buses.filter (fun b => !(b.id == bus.id)),
          students := st.students.map
            (fun s => if s.bus_id == some bus.id then { s with bus_id := none } else s) })

/-! ## Drivers menu, menus/drivers.py -/

/-- add_driver from menus/drivers.py lines 43 to 81. -/
def add_driver (st : Store) (inputs : List String) : Option (Outcome × Store) :=
  match get_valid_input vNonempty inputs with
  | none => none
  | some (.cancelled, _) => some (.cancelled, st)
  | some (.value name, inputs1) =>
    match get_valid_input is_phone_number inputs1 with
    | none => none
    | some (.cancelled, _) => some (.cancelled, st)
    | some (.value phone, inputs2) =>
      match get_valid_input vNonempty inputs2 with
      | none => none
      | some (.cancelled, _) => some (.cancelled, st)
      | some (.value license_no, _) =>
        let d : Driver :=
          ⟨nextId (st.drivers.map (·.id)), name, phone, some license_no, false⟩
        if driverInsertOk st.drivers d then
          some (.ok, { st with drivers := st.drivers ++ [d] })
        else some (.dbError, st)

/-- Commit step of update_driver, menus/drivers.py lines 136 to 149: the
conditional attribute assignments produce this row, and the guarded commit
rolls back on a store error. -/
def update_driver_commit (st : Store) (driver : Driver) (new_name new_phone : String)
    (new_license : Option String) : Option (Outcome × Store) :=
  let d2 := { driver with name := new_name, phone := new_phone, license_number := new_license }
  if driverUpdateOk st.drivers d2 then
    some (.ok, { st with
      drivers := st.drivers.map (fun e => if e.id == driver.id then d2 else e) })
  else some (.dbError, st)

/-- update_driver from menus/drivers.py lines 87 to 151.  The or-expressions
swallow a cancel at the name, phone and license prompts into the current
values, except that a cancel at the license prompt of a driver without a
license is detected and aborts. -/
def update_driver (st : Store) (inputs : List String) : Option (Outcome × Store) :=
  if st.drivers.isEmpty then some (.err .emptyTable, st) else
  match get_valid_input
      (fun x => pyIsdigit x && st.drivers.any (fun d => d.id == digitsNat x)) inputs with
  | none => none
  | some (.cancelled, _) => some (.cancelled, st)
  | some (.value did_str, inputs1) =>
    match st.drivers.find? (fun d => d.id == digitsNat did_str) with
    | none => some (.err .notFound, st)
    | some driver =>
      match get_valid_input
          (fun x => !(pyStrip x).data.isEmpty || !driver.name.data.isEmpty) inputs1 with
      | none => none
      | some (r1, inputs2) =>
        let new_name :=
          match r1 with
          | .cancelled => driver.name
          | .value v => if v.data.isEmpty then driver.name else v
        match get_valid_input is_phone_number inputs2 with
        | none => none
        | some (r2, inputs3) =>
          let new_phone :=
            match r2 with
            | .cancelled => driver.phone
            | .value v => v
          match get_valid_input
              (fun x => !(pyStrip x).data.isEmpty
                || (match driver.license_number with
                    | some l => !l.data.isEmpty
                    | none => false)) inputs3 with
          | none => none
          | some (r3, _) =>
            match r3, driver.license_number with
            | .cancelled, none => some (.cancelled, st)
            | .cancelled, some l => update_driver_commit st driver new_name new_phone (some l)
            | .value v, _ =>
              update_driver_commit st driver new_name new_phone
                (if v.data.isEmpty then driver.license_number else some v)

/-- delete_driver from menus/drivers.py lines 157 to 200.  The buses
relationship has no cascade: the ORM clears driver_id on the buses of the
driver in the same flush as the delete. -/
def delete_driver (st : Store) (inputs : List String) : Option (Outcome × Store) :=
  if st.drivers.isEmpty then some (.err .emptyTable, st) else
  match get_valid_input
      (fun x => pyIsdigit x && st.drivers.any (fun d => d.id == digitsNat x)) inputs with
  | none => none
  | some (.cancelled, _) => some (.cancelled, st)
  | some (.value did_str, inputs1) =>
    match st.drivers.find? (fun d => d.id == digitsNat did_str) with
    | none => some (.err .notFound, st)
    | some driver =>
      match confirm_action inputs1 with
      | none => none
      | some (false, _) => some (.err .notConfirmed, st)
      | some (true, _) =>
        some (.ok, { st with
          drivers := st.drivers.filter (fun d => !(d.id == driver.id)),
          buses := st.buses.map
            (fun b => if b.driver_id == some driver.id then { b with driver_id := none } else b) })

/-! ## Attendants menu, menus/attendants.py -/

/-- add_attendant from menus/attendants.py lines 42 to 73. -/
def add_attendant (st : Store) (inputs : List String) : Option (Outcome × Store) :=
  match get_valid_input vNonempty inputs with
  | none => none
  | some (.cancelled, _) => some (.cancelled, st)
  | some (.value name, inputs1) =>
    match get_valid_input is_phone_number inputs1 with
    | none => none
    | some (.cancelled, _) => some (.cancelled, st)
    | some (.value phone, _) =>
      let a : Attendant := ⟨nextId (st.attendants.map (·.id)), name, phone⟩
      some (.ok, { st with attendants := st.attendants ++ [a] })

/-- update_attendant from menus/attendants.py lines 79 to 135.  The attendants
table carries no constraints, so the guarded commit always succeeds. -/
def update_attendant (st : Store) (inputs : List String) : Option (Outcome × Store) :=
  if st.attendants.isEmpty then some (.err .emptyTable, st) else
  match get_valid_input
      (fun x => pyIsdigit x && st.attendants.any (fun a => a.id == digitsNat x)) inputs with
  | none => none
  | some (.cancelled, _) => some (.cancelled, st)
  | some (.value aid_str, inputs1) =>
    match st.attendants.find? (fun a => a.id == digitsNat aid_str) with
    | none => some (.err .notFound, st)
    | some attendant =>
      match get_valid_input
          (fun x => !(pyStrip x).data.isEmpty || !attendant.name.data.isEmpty) inputs1 with
      | none => none
      | some (r1, inputs2) =>
        let new_name :=
          match r1 with
          | .cancelled => attendant.name
          | .value v => if v.data.isEmpty then attendant.name else v
        match get_valid_input is_phone_number inputs2 with
        | none => none
        | some (r2, _) =>
          let new_phone :=
            match r2 with
            | .cancelled => attendant.phone
            | .value v => v
          let a2 := { attendant with name := new_name, phone := new_phone }
          some (.ok, { st with
            attendants := st.attendants.map (fun b => if b.id == attendant.id then a2 else b) })

/-- delete_attendant from menus/attendants.py lines 141 to 185.  The buses
relationship has no cascade: the ORM clears attendant_id on the buses of the
attendant in the same flush as the delete. -/
def delete_attendant (st : Store) (inputs : List String) : Option (Outcome × Store) :=
  if st.attendants.isEmpty then some (.err .emptyTable, st) else
  match get_valid_input
      (fun x => pyIsdigit x && st.attendants.any (fun a => a.id == digitsNat x)) inputs with
  | none => none
  | some (.cancelled, _) => some (.cancelled, st)
  | some (.value aid_str, inputs1) =>
    match st.attendants.find? (fun a => a.id == digitsNat aid_str) with
    | none => some (.err .notFound, st)
    | some attendant =>
      match confirm_action inputs1 with
      | none => none
      | some (false, _) => some (.err .notConfirmed, st)
      | some (true, _) =>
        some (.ok, { st with
          attendants := st.attendants.filter (fun a => !(a.id == attendant.id)),
          buses := st.buses.map
            (fun b => if b.attendant_id == some attendant.id then { b with attendant_id := none }
                      else b) })

/-! ## Students menu, menus/students.py -/

/-- add_student from menus/students.py lines 59 to 129.  Contact and address
are optional and stored as null when blank; the bus list must be nonempty even
though the assignment itself may be left blank. -/
def add_student (st : Store) (inputs : List String) : Option (Outcome × Store) :=
  match get_valid_input vNonempty inputs with
  | none => none
  | some (.cancelled, _) => some (.cancelled, st)
  | some (.value name, inputs1) =>
    match get_valid_input (fun x => x.data.isEmpty || is_phone_number x) inputs1 with
    | none => none
    | some (.cancelled, _) => some (.cancelled, st)
    | some (.value contact, inputs2) =>
      match get_valid_input (fun _ => true) inputs2 with
      | none => none
      | some (.cancelled, _) => some (.cancelled, st)
      | some (.value address, inputs3) =>
        match get_valid_input is_non_negative_number inputs3 with
        | none => none
        | some (.cancelled, _) => some (.cancelled, st)
        | some (.value rate_str, inputs4) =>
          match pyFloat? rate_str with
          | none => some (.raised, st)
          | some monthly_rate =>
            if st.buses.isEmpty then some (.err .emptyTable, st) else
            match get_valid_input
                (fun x => x.data.isEmpty
                  || (pyIsdigit x && st.buses.any (fun b => b.id == digitsNat x))) inputs4 with
            | none => none
            | some (.cancelled, _) => some (.cancelled, st)
            | some (.value bv, _) =>
              let bus_id : Option Nat := if bv.data.isEmpty then none else some (digitsNat bv)
              let s : Student :=
                ⟨nextId (st.students.map (·.id)), name,
                  (if contact.data.isEmpty then none else some contact),
                  (if address.data.isEmpty then none else some address),
                  bus_id, monthly_rate, true⟩
              if studentRowOk s then
                some (.ok, { st with students := st.students ++ [s] })
              else some (.dbError, st)

/-- Commit step of update_student, menus/students.py lines 199 to 209. -/
def update_student_commit (st : Store) (student : Student) (new_name : String)
    (new_contact new_address : Option String) (new_rate : ℚ) (new_bus_id : Option Nat)
    : Option (Outcome × Store) :=
  let s2 :=
    { student with
        name := new_name, parent_contact := new_contact, address := new_address,
        monthly_rate := new_rate, bus_id := new_bus_id }
  if studentRowOk s2 then
    some (.ok, { st with
      students := st.students.map (fun u => if u.id == student.id then s2 else u) })
  else some (.dbError, st)

/-- Bus reassignment prompt of update_student, menus/students.py lines 186 to
196, then the commit.  The bus list is shown even when empty; a blank entry
keeps the current assignment. -/
def update_student_bus (st : Store) (student : Student) (new_name : String)
    (new_contact new_address : Option String) (new_rate : ℚ) (inputs : List String)
    : Option (Outcome × Store) :=
  match get_valid_input
      (fun x => x.data.isEmpty
        || (pyIsdigit x && st.buses.any (fun b => b.id == digitsNat x))) inputs with
  | none => none
  | some (.cancelled, _) => some (.cancelled, st)
  | some (.value bv, _) =>
    update_student_commit st student new_name new_contact new_address new_rate
      (if bv.data.isEmpty then student.bus_id else some (digitsNat bv))

/-- Monthly rate prompt of update_student, menus/students.py lines 179 to
184: a cancel is honoured here, a value is parsed as a float. -/
def update_student_rate (st : Store) (student : Student) (new_name : String)
    (new_contact new_address : Option String) (inputs : List String)
    : Option (Outcome × Store) :=
  match get_valid_input is_non_negative_number inputs with
  | none => none
  | some (.cancelled, _) => some (.cancelled, st)
  | some (.value rate_str, inputs1) =>
    match pyFloat? rate_str with
    | none => some (.raised, st)
    | some new_rate =>
      update_student_bus st student new_name new_contact new_address new_rate inputs1

/-- Address prompt of update_student, menus/students.py lines 174 to 178: the
or-expression falls back to the stored address; with a null stored address a
blank or cancelled entry makes the whole expression None, read as a
cancellation. -/
def update_student_address (st : Store) (student : Student) (new_name : String)
    (new_contact : Option String) (inputs : List String) : Option (Outcome × Store) :=
  match get_valid_input (fun _ => true) inputs with
  | none => none
  | some (r3, inputs1) =>
    let addressFallback : Option (Option String) :=
      match student.address with
      | none => none
      | some a => some (some a)
    let new_address? : Option (Option String) :=
      match r3 with
      | .cancelled => addressFallback
      | .value v => if v.data.isEmpty then addressFallback else some (some v)
    match new_address? with
    | none => some (.cancelled, st)
    | some new_address =>
      update_student_rate st student new_name new_contact new_address inputs1

/-- Contact prompt of update_student, menus/students.py lines 169 to 173,
with the same fallback behaviour as the address prompt. -/
def update_student_contact (st : Store) (student : Student) (new_name : String)
    (inputs : List String) : Option (Outcome × Store) :=
  match get_valid_input (fun x => x.data.isEmpty || is_phone_number x) inputs with
  | none => none
  | some (r2, inputs1) =>
    let contactFallback : Option (Option String) :=
      match student.parent_contact with
      | none => none
      | some c => some (some c)
    let new_contact? : Option (Option String) :=
      match r2 with
      | .cancelled => contactFallback
      | .value v => if v.data.isEmpty then contactFallback else some (some v)
    match new_contact? with
    | none => some (.cancelled, st)
    | some new_contact =>
      update_student_address st student new_name new_contact inputs1

/-- update_student from menus/students.py lines 132 to 211: select the row,
then run the field prompts and the guarded commit. -/
def update_student (st : Store) (inputs : List String) : Option (Outcome × Store) :=
  if st.students.isEmpty then some (.err .emptyTable, st) else
  match get_valid_input
      (fun x => pyIsdigit x && st.students.any (fun s => s.id == digitsNat x)) inputs with
  | none => none
  | some (.cancelled, _) => some (.cancelled, st)
  | some (.value sid_str, inputs1) =>
    match st.students.find? (fun s => s.id == digitsNat sid_str) with
    | none => some (.err .notFound, st)
    | some student =>
      match get_valid_input
          (fun x => !(pyStrip x).data.isEmpty || !student.name.data.isEmpty) inputs1 with
      | none => none
      | some (r1, inputs2) =>
        let new_name :=
          match r1 with
          | .cancelled => student.name
          | .value v => if v.data.isEmpty then student.name else v
        update_student_contact st student new_name inputs2

/-- delete_student from menus/students.py lines 214 to 257.  The payments
relationship cascades: the payments of the student are deleted in the same
flush. -/
def delete_student (st : Store) (inputs : List String) : Option (Outcome × Store) :=
  if st.students.isEmpty then some (.err .emptyTable, st) else
  match get_valid_input
      (fun x => pyIsdigit x && st.students.any (fun s => s.id == digitsNat x)) inputs with
  | none => none
  | some (.cancelled, _) => some (.cancelled, st)
  | some (.value sid_str, inputs1) =>
    match st.students.find? (fun s => s.id == digitsNat sid_str) with
    | none => some (.err .notFound, st)
    | some student =>
      match confirm_action inputs1 with
      | none => none
      | some (false, _) => some (.err .notConfirmed, st)
      | some (true, _) =>
        some (.ok, { st with
          students := st.students.filter (fun s => !(s.id == student.id)),
          payments := st.payments.filter (fun p => !(p.student_id == student.id)) })

/-! ## Utilization, menus/buses.py and menus/reports.py

The same guarded expression appears at three sites:
(student_count / bus.capacity * 100) if bus.capacity and bus.capacity > 0
else 0.  A null or zero capacity is falsy, so no division is attempted.
-/

/-- Utilization as printed by list_buses, menus/buses.py line 34. -/
def list_buses_utilization (student_count : Nat) (capacity : Option Int) : ℚ :=
  match capacity with
  | some c => if 0 < c then (student_count : ℚ) / (c : ℚ) * 100 else 0
  | none => 0

/-- Utilization as printed by generate_bus_report, menus/reports.py line 131. -/
def bus_report_utilization (student_count : Nat) (capacity : Option Int) : ℚ :=
  match capacity with
  | some c => if 0 < c then (student_count : ℚ) / (c : ℚ) * 100 else 0
  | none => 0

/-- Utilization as written by export_buses_to_csv, menus/reports.py line 192. -/
def csv_export_utilization (student_count : Nat) (capacity : Option Int) : ℚ :=
  match capacity with
  | some c => if 0 < c then (student_count : ℚ) / (c : ℚ) * 100 else 0
  | none => 0

/-! ## Reachability

One step of the system is one completed menu operation.  For update_bus the
successor is the in-session store, which every later read and commit observes.
-/

/-- One menu operation relates a store to its successor. -/
inductive Step : Store → Store → Prop where
  | add_payment (st : Store) (ins : List String) (e : Outcome) (st₂ : Store) :
      add_payment st ins = some (e, st₂) → Step st st₂
  | update_payment (st : Store) (ins : List String) (e : Outcome) (st₂ : Store) :
      update_payment st ins = some (e, st₂) → Step st st₂
  | delete_payment (st : Store) (ins : List String) (e : Outcome) (st₂ : Store) :
      delete_payment st ins = some (e, st₂) → Step st st₂
  | add_academic_year (st : Store) (ins : List String) (e : Outcome) (st₂ : Store) :
      add_academic_year st ins = some (e, st₂) → Step st st₂
  | edit_academic_year (st : Store) (ins : List String) (e : Outcome) (st₂ : Store) :
      edit_academic_year st ins = some (e, st₂) → Step st st₂
  | delete_academic_year (st : Store) (ins : List String) (e : Outcome) (st₂ : Store) :
      delete_academic_year st ins = some (e, st₂) → Step st st₂
  | add_term (st : Store) (ins : List String) (e : Outcome) (st₂ : Store) :
      add_term st ins = some (e, st₂) → Step st st₂
  | edit_term (st : Store) (ins : List String) (e : Outcome) (st₂ : Store) :
      edit_term st ins = some (e, st₂) → Step st st₂
  | delete_term (st : Store) (ins : List String) (e : Outcome) (st₂ : Store) :
      delete_term st ins = some (e, st₂) → Step st st₂
  | add_bus (st : Store) (ins : List String) (e : Outcome) (st₂ : Store) :
      add_bus st ins = some (e, st₂) → Step st st₂
  | update_bus (st : Store) (ins : List String) (e : Outcome) (db mem : Store) :
      update_bus st ins = some (e, db, mem) → Step st mem
  | delete_bus (st : Store) (ins : List String) (e : Outcome) (st₂ : Store) :
      delete_bus st ins = some (e, st₂) → Step st st₂
  | add_driver (st : Store) (ins : List String) (e : Outcome) (st₂ : Store) :
      add_driver st ins = some (e, st₂) → Step st st₂
  | update_driver (st : Store) (ins : List String) (e : Outcome) (st₂ : Store) :
      update_driver st ins = some (e, st₂) → Step st st₂
  | delete_driver (st : Store) (ins : List String) (e : Outcome) (st₂ : Store) :
      delete_driver st ins = some (e, st₂) → Step st st₂
  | add_attendant (st : Store) (ins : List String) (e : Outcome) (st₂ : Store) :
      add_attendant st ins = some (e, st₂) → Step st st₂
  | update_attendant (st : Store) (ins : List String) (e : Outcome) (st₂ : Store) :
      update_attendant st ins = some (e, st₂) → Step st st₂
  | delete_attendant (st : Store) (ins : List String) (e : Outcome) (st₂ : Store) :
      delete_attendant st ins = some (e, st₂) → Step st st₂
  | add_student (st : Store) (ins : List String) (e : Outcome) (st₂ : Store) :
      add_student st ins = some (e, st₂) → Step st st₂
  | update_student (st : Store) (ins : List String) (e : Outcome) (st₂ : Store) :
      update_student st ins = some (e, st₂) → Step st st₂
  | delete_student (st : Store) (ins : List String) (e : Outcome) (st₂ : Store) :
      delete_student st ins = some (e, st₂) → Step st st₂

/-- A store is reachable when a sequence of menu operations produces it from
an empty database. -/
def ReachableStore (st : Store) : Prop :=
  ∃ d : PyDate, Relation.ReflTransGen Step (emptyStore d) st

/-! ## Invariants -/

/-- Application-level uniqueness of the payment key: no two rows agree on
student, term and week, where two absent week numbers count as equal, matching
the duplicate check of add_payment. -/
def paymentsTripleUnique (st : Store) : Prop :=
  List.Pairwise
    (fun p q => ¬(p.student_id = q.student_id ∧ p.term_id = q.term_id
      ∧ p.week_number = q.week_number)) st.payments

/-- Every academic year and term row has strictly ordered dates. -/
def datesOk (st : Store) : Prop :=
  (∀ y ∈ st.academic_years, y.start_date.key < y.end_date.key)
    ∧ (∀ t ∈ st.terms, t.start_date.key < t.end_date.key)

/-! ## Concrete stores used to instantiate the theorems -/

/-- First of January 2024. -/
def dJan : PyDate := ⟨2024, 1, 1⟩

/-- End of December 2024. -/
def dDec : PyDate := ⟨2024, 12, 31⟩

/-- An academic year row used by the concrete stores. -/
def yr2024 : AcademicYear := ⟨1, "2024/2025", dJan, dDec⟩

/-- A term row under yr2024. -/
def term1 : Term := ⟨1, "Term 1", ⟨2024, 1, 10⟩, ⟨2024, 4, 5⟩, some 1⟩

/-- A student row with a monthly rate of 50. -/
def alice : Student := ⟨1, "Alice", none, none, none, 50, true⟩

/-- Store with one year, one term and one student: the starting point for the
payment scenarios. -/
def payStore : Store := ⟨[yr2024], [term1], [], [], [], [alice], [], dJan⟩

/-- A payment of 25 by alice for term1 week 1, balance 25. -/
def alicePay : Payment := ⟨1, 1, 1, some 1, 25, 25, dJan⟩

/-- payStore after alicePay was recorded. -/
def payStore1 : Store := { payStore with payments := [alicePay] }

/-- Expected result of adding a week 2 payment of 30 to payStore1. -/
def payStore2 : Store :=
  { payStore with payments := [alicePay, ⟨2, 1, 1, some 2, 30, 20, dJan⟩] }

/-- Expected result of updating the amount of alicePay to 10. -/
def payStoreUpd : Store :=
  { payStore with payments := [⟨1, 1, 1, some 1, 10, 40, dJan⟩] }

/-- Expected result of the week-abc run of add_payment on payStore: a general
payment with a null week was written. -/
def payStoreGeneral : Store :=
  { payStore with payments := [⟨1, 1, 1, none, 25, 25, dJan⟩] }

/-- Bus fleet store for the cancellation scenario: one bus named A with
capacity 30, one driver, no money fields anywhere. -/
def busStore : Store :=
  ⟨[], [], [⟨1, "Dan", "0712345678", some "L1", false⟩], [],
    [⟨1, "A", none, some 30, none, none⟩], [], [], dJan⟩

/-- The session state left behind by the cancelled update_bus run on busStore:
name and capacity of bus 1 were already assigned. -/
def busStoreMem : Store :=
  ⟨[], [], [⟨1, "Dan", "0712345678", some "L1", false⟩], [],
    [⟨1, "B", none, some 40, none, none⟩], [], [], dJan⟩

/-- Store holding the year 2024/2025 already, for the duplicate-name commit. -/
def dupYearStore : Store := ⟨[yr2024], [], [], [], [], [], [], dJan⟩

/-- dupYearStore after an edit_academic_year run that renamed the year while
cancels at both date prompts were swallowed into the current dates. -/
def dupYearStoreRenamed : Store := ⟨[⟨1, "NewName", dJan, dDec⟩], [], [], [], [], [], [], dJan⟩

/-- Store for the cascade delete scenario: the year owns term1 and a second
term, each with one payment; a second year with its own term and payment must
survive. -/
def cascadeStore : Store :=
  ⟨[yr2024, ⟨2, "2025/2026", ⟨2025, 1, 1⟩, ⟨2025, 12, 31⟩⟩],
    [term1, ⟨2, "Term 2", ⟨2024, 5, 1⟩, ⟨2024, 8, 1⟩, some 1⟩,
      ⟨3, "Term 1", ⟨2025, 1, 10⟩, ⟨2025, 4, 5⟩, some 2⟩],
    [], [], [], [alice],
    [⟨1, 1, 1, some 1, 25, 25, dJan⟩, ⟨2, 1, 2, some 1, 30, 20, dJan⟩,
      ⟨3, 1, 3, some 1, 10, 40, dJan⟩],
    dJan⟩

/-- cascadeStore after year 1 was deleted: its two terms and their two
payments are gone, the 2025/2026 subtree survives. -/
def cascadeStoreAfter : Store :=
  ⟨[⟨2, "2025/2026", ⟨2025, 1, 1⟩, ⟨2025, 12, 31⟩⟩],
    [⟨3, "Term 1", ⟨2025, 1, 10⟩, ⟨2025, 4, 5⟩, some 2⟩],
    [], [], [], [alice],
    [⟨3, 1, 3, some 1, 10, 40, dJan⟩],
    dJan⟩

/-- Store for the nullify scenario: two drivers, an attendant, two buses, one
bus referencing driver 1 and attendant 1, one student on bus 1. -/
def fleetStore : Store :=
  ⟨[], [],
    [⟨1, "Dan", "0712345678", some "L1", false⟩, ⟨2, "Eve", "0798765432", some "L2", false⟩],
    [⟨1, "Amy", "0711111111"⟩],
    [⟨1, "A", some "P1", some 30, some 1, some 1⟩, ⟨2, "B", some "P2", some 20, some 2, none⟩],
    [⟨1, "Sam", none, none, some 1, 0, true⟩],
    [], dJan⟩

/-- fleetStore after driver 1 was deleted: bus 1 keeps everything but its
driver reference. -/
def fleetStoreNoD1 : Store :=
  ⟨[], [],
    [⟨2, "Eve", "0798765432", some "L2", false⟩],
    [⟨1, "Amy", "0711111111"⟩],
    [⟨1, "A", some "P1", some 30, none, some 1⟩, ⟨2, "B", some "P2", some 20, some 2, none⟩],
    [⟨1, "Sam", none, none, some 1, 0, true⟩],
    [], dJan⟩

/-- fleetStore after attendant 1 was deleted: bus 1 keeps everything but its
attendant reference. -/
def fleetStoreNoA1 : Store :=
  ⟨[], [],
    [⟨1, "Dan", "0712345678", some "L1", false⟩, ⟨2, "Eve", "0798765432", some "L2", false⟩],
    [],
    [⟨1, "A", some "P1", some 30, some 1, none⟩, ⟨2, "B", some "P2", some 20, some 2, none⟩],
    [⟨1, "Sam", none, none, some 1, 0, true⟩],
    [], dJan⟩

/-! ## Effect shapes used by the invariant proofs -/

/-- The application-level key of a payment row. -/
def tripleOf (p : Payment) : Nat × Nat × Option Nat :=
  (p.student_id, p.term_id, p.week_number)

/-- Pairwise distinct primary keys in the payments table. -/
def payIdsDistinct (l : List Payment) : Prop :=
  l.Pairwise (fun a b => a.id ≠ b.id)

/-- Pairwise distinct payment keys, absent weeks comparing equal. -/
def payTriplesDistinct (l : List Payment) : Prop :=
  l.Pairwise (fun a b => tripleOf a ≠ tripleOf b)

/-- How one menu operation can transform the payments table: untouched, a
filter, an in-place single-row update preserving id and key, or an append of
a row with a fresh id and a fresh key. -/
def PaymentsStep (P Q : List Payment) : Prop :=
  Q = P
  ∨ (∃ f : Payment → Bool, Q = P.filter f)
  ∨ (∃ payment p2, payment ∈ P ∧ p2.id = payment.id ∧ tripleOf p2 = tripleOf payment
      ∧ Q = P.map (fun q => if q.id == payment.id then p2 else q))
  ∨ (∃ p, Q = P ++ [p] ∧ (∀ q ∈ P, q.id ≠ p.id) ∧ (∀ q ∈ P, tripleOf q ≠ tripleOf p))

/-- Every academic year row after the operation is an old row or one the
store checked for ordered dates. -/
def YearsBounded (st st₂ : Store) : Prop :=
  ∀ y ∈ st₂.academic_years, y ∈ st.academic_years ∨ yearRowOk y = true

/-- Every term row after the operation is an old row or one the store checked
for ordered dates. -/
def TermsBounded (st st₂ : Store) : Prop :=
  ∀ t ∈ st₂.terms, t ∈ st.terms ∨ termRowOk t = true

/-- The combined per-operation effect bound carried through every step. -/
def StoreStepOK (st st₂ : Store) : Prop :=
  YearsBounded st st₂ ∧ TermsBounded st st₂ ∧ PaymentsStep st.payments st₂.payments

/-! ## Theorems -/

/-- C10: any prompt read through get_valid_input treats an input that strips
and lowercases to cancel or exit as a cancellation returning None, whatever
the validation function says, and any value it does return never lowercases
to one of those tokens (and passed validation). -/
theorem c10_cancel_token_semantics :
    (∀ (valid : String → Bool) (first : String) (rest : List String),
      pyLower (pyStrip first) = "cancel" ∨ pyLower (pyStrip first) = "exit" →
      get_valid_input valid (first :: rest) = some (.cancelled, rest))
    ∧ (∀ (valid : String → Bool) (inputs rest : List String) (r : String),
      get_valid_input valid inputs = some (.value r, rest) →
      pyLower r ≠ "cancel" ∧ pyLower r ≠ "exit" ∧ valid r = true) := by
  constructor
  · intro valid first rest h
    rcases h with h | h <;> simp [get_valid_input, h]
  · intro valid inputs
    induction inputs with
    | nil => intro rest r h; simp [get_valid_input] at h
    | cons i tl ih =>
      intro rest r h
      by_cases hc : (pyLower (pyStrip i) == "cancel" || pyLower (pyStrip i) == "exit") = true
      · simp [get_valid_input, hc] at h
      · by_cases hv : valid (pyStrip i) = true
        · simp [get_valid_input, hc, hv] at h
          simp only [Bool.not_eq_true, Bool.or_eq_false_iff, beq_eq_false_iff_ne, ne_eq] at hc
          exact ⟨h.1 ▸ hc.1, h.1 ▸ hc.2, h.1 ▸ hv⟩
        · simp only [get_valid_input, hc, Bool.false_eq_true, if_false,
            hv, Bool.not_false, if_true] at h
          exact ih rest r h

/-- C10 witness: the token CANCEL with surrounding blanks cancels a prompt
whose validation rejects everything, and a plain value returned by a prompt is
not a cancellation token. -/
theorem c10_witness :
    get_valid_input (fun _ => false) ["  CANCEL "] = some (.cancelled, [])
    ∧ (pyLower "ok" ≠ "cancel" ∧ pyLower "ok" ≠ "exit" ∧ (fun _ => true) "ok" = true) :=
  ⟨c10_cancel_token_semantics.1 (fun _ => false) "  CANCEL " [] (Or.inl (by decide)),
    c10_cancel_token_semantics.2 (fun _ => true) ["ok"] [] "ok" (by decide)⟩

/-- C9: the utilization computed by the bus listing, the bus report and the
CSV export is one and the same expression, equal to
student_count / capacity * 100 for a positive capacity and to 0 for a zero or
null capacity, with the guard making the division unreachable otherwise. -/
theorem c9_utilization_never_divides_by_zero :
    ∀ (n : Nat) (cap : Option Int),
      list_buses_utilization n cap = bus_report_utilization n cap
      ∧ bus_report_utilization n cap = csv_export_utilization n cap
      ∧ (∀ c : Int, cap = some c → 0 < c →
          list_buses_utilization n cap = (n : ℚ) / (c : ℚ) * 100)
      ∧ ((cap = none ∨ cap = some 0) → list_buses_utilization n cap = 0) := by
  intro n cap
  refine ⟨rfl, rfl, ?_, ?_⟩
  · rintro c rfl hc
    simp [list_buses_utilization, hc]
  · rintro (rfl | rfl) <;> simp [list_buses_utilization]

/-- C9 witness: a bus with 40 seats filled out of capacity 40 computes the
division form, and a capacity-zero bus computes zero. -/
theorem c9_witness :
    list_buses_utilization 40 (some 40) = (40 : ℚ) / (40 : ℚ) * 100
    ∧ list_buses_utilization 7 (some 0) = 0 :=
  ⟨(c9_utilization_never_divides_by_zero 40 (some 40)).2.2.1 40 rfl (by decide),
    (c9_utilization_never_divides_by_zero 7 (some 0)).2.2.2 (Or.inr rfl)⟩

/-- C3 counterexample: on a store with one bus named A of capacity 30 and one
driver, update_bus with a new name B, a new capacity 40 and a cancel at the
driver prompt returns the cancellation, yet the in-session store already
carries the renamed, resized bus: the pending session state differs from the
state before the operation, which the claim forbids. -/
theorem c3_counterexample :
    update_bus busStore ["1", "B", "40", "cancel"] = some (.cancelled, busStore, busStoreMem)
    ∧ busStoreMem ≠ busStore := by
  exact ⟨by decide, by decide⟩

/-- C4 counterexample: adding an academic year whose name already exists
commits unguarded in menus/academic_years.py, the uniqueness violation
escapes the menu as an exception and the top level of main.py exits the
process instead of returning to the menu. -/
theorem c4_counterexample :
    add_academic_year dupYearStore ["2024/2025", "2025-01-01", "2025-12-31"]
        = some (.raised, dupYearStore)
    ∧ control_after .raised = .exited
    ∧ ControlFlow.exited ≠ ControlFlow.menu := by
  exact ⟨by decide, rfl, by decide⟩

/-! ## Helper lemmas on lists and keys -/

/-- Every element of a list is at most the running maximum foldl computes. -/
theorem le_foldl_max (l : List Nat) :
    ∀ acc : Nat, (∀ x ∈ l, x ≤ l.foldl max acc) ∧ acc ≤ l.foldl max acc := by
  induction l with
  | nil => intro acc; exact ⟨by simp, le_refl _⟩
  | cons a tl ih =>
    intro acc
    refine ⟨?_, le_trans (le_max_left acc a) (ih (max acc a)).2⟩
    intro x hx
    rcases List.mem_cons.mp hx with rfl | hx
    · exact le_trans (le_max_right acc x) (ih (max acc x)).2
    · exact (ih (max acc a)).1 x hx

/-- The fresh id handed to an insert differs from every id in use. -/
theorem nextId_fresh (ids : List Nat) : ∀ x ∈ ids, x ≠ nextId ids := by
  intro x hx
  have hle : x ≤ ids.foldl max 0 := (le_foldl_max ids 0).1 x hx
  unfold nextId
  omega

/-- Two members of a table with pairwise distinct ids and equal ids are the
same row. -/
theorem payIdsDistinct_mem_eq (l : List Payment) (hid : payIdsDistinct l)
    (a b : Payment) (ha : a ∈ l) (hb : b ∈ l) (hab : a.id = b.id) : a = b := by
  induction l with
  | nil => cases ha
  | cons x xs ih =>
    obtain ⟨hx, hxs⟩ := List.pairwise_cons.mp hid
    rcases List.mem_cons.mp ha with ha1 | ha1
    · rcases List.mem_cons.mp hb with hb1 | hb1
      · rw [ha1, hb1]
      · subst ha1
        exact absurd hab (hx b hb1)
    · rcases List.mem_cons.mp hb with hb1 | hb1
      · subst hb1
        exact absurd hab.symm (hx a ha1)
      · exact ih hxs ha1 hb1

/-- The in-place single-row update of the payments table keeps the key
uniqueness invariant. -/
theorem payTriples_map_update (P : List Payment) (payment p2 : Payment)
    (hmem : payment ∈ P) (hpid : p2.id = payment.id) (hpt : tripleOf p2 = tripleOf payment)
    (hid : payIdsDistinct P) (htr : payTriplesDistinct P) :
    payTriplesDistinct (P.map (fun q => if q.id == payment.id then p2 else q)) := by
  unfold payTriplesDistinct
  rw [List.pairwise_map]
  have hcomb : P.Pairwise (fun a b => a.id ≠ b.id ∧ tripleOf a ≠ tripleOf b) := hid.and htr
  refine hcomb.imp_of_mem ?_
  intro a b ha hb hab
  by_cases hA : (a.id == payment.id) = true
  · have haP : a = payment :=
      payIdsDistinct_mem_eq P hid a payment ha hmem (beq_iff_eq.mp hA)
    by_cases hB : (b.id == payment.id) = true
    · have hbP : b = payment :=
        payIdsDistinct_mem_eq P hid b payment hb hmem (beq_iff_eq.mp hB)
      exact absurd (congrArg Payment.id (haP.trans hbP.symm)) hab.1
    · rw [if_pos hA, if_neg hB, hpt, ← haP]
      exact hab.2
  · by_cases hB : (b.id == payment.id) = true
    · have hbP : b = payment :=
        payIdsDistinct_mem_eq P hid b payment hb hmem (beq_iff_eq.mp hB)
      rw [if_neg hA, if_pos hB, hpt, ← hbP]
      exact hab.2
    · rw [if_neg hA, if_neg hB]
      exact hab.2

/-- A payments-table step preserves both uniqueness invariants. -/
theorem paymentsStep_preserves (P Q : List Payment) (hs : PaymentsStep P Q)
    (hid : payIdsDistinct P) (htr : payTriplesDistinct P) :
    payIdsDistinct Q ∧ payTriplesDistinct Q := by
  rcases hs with rfl | ⟨f, rfl⟩ | ⟨payment, p2, hmem, hpid, hpt, rfl⟩ | ⟨p, rfl, hfresh, htrf⟩
  · exact ⟨hid, htr⟩
  · exact ⟨hid.sublist (List.filter_sublist P), htr.sublist (List.filter_sublist P)⟩
  · constructor
    · unfold payIdsDistinct
      rw [List.pairwise_map]
      refine hid.imp ?_
      intro a b hab
      by_cases hA : (a.id == payment.id) = true
      · by_cases hB : (b.id == payment.id) = true
        · exact absurd ((beq_iff_eq.mp hA).trans (beq_iff_eq.mp hB).symm) hab
        · rw [if_pos hA, if_neg hB, hpid, ← beq_iff_eq.mp hA]
          exact hab
      · by_cases hB : (b.id == payment.id) = true
        · rw [if_neg hA, if_pos hB, hpid, ← beq_iff_eq.mp hB]
          exact hab
        · rw [if_neg hA, if_neg hB]
          exact hab
    · exact payTriples_map_update P payment p2 hmem hpid hpt hid htr
  · constructor
    · unfold payIdsDistinct
      rw [List.pairwise_append]
      refine ⟨hid, List.pairwise_singleton _ _, ?_⟩
      intro a ha b hb
      rw [List.mem_singleton.mp hb]
      exact hfresh a ha
    · unfold payTriplesDistinct
      rw [List.pairwise_append]
      refine ⟨htr, List.pairwise_singleton _ _, ?_⟩
      intro a ha b hb
      rw [List.mem_singleton.mp hb]
      exact htrf a ha

/-- The declared payment-key uniqueness follows from the pairwise key form. -/
theorem payTriples_to_unique (st : Store) (h : payTriplesDistinct st.payments) :
    paymentsTripleUnique st := by
  refine h.imp ?_
  intro p q hpq hcon
  exact hpq (by unfold tripleOf; rw [hcon.1, hcon.2.1, hcon.2.2])

/-- A step bound keeps the date invariant. -/
theorem storeStepOK_datesOk (st st₂ : Store) (hs : StoreStepOK st st₂)
    (hd : datesOk st) : datesOk st₂ := by
  refine ⟨fun y hy => ?_, fun t ht => ?_⟩
  · rcases hs.1 y hy with h | h
    · exact hd.1 y h
    · exact of_decide_eq_true h
  · rcases hs.2.1 t ht with h | h
    · exact hd.2 t h
    · exact of_decide_eq_true h

/-! ## Per-operation effect bounds -/

/-- add_bus leaves years, terms and payments untouched. -/
theorem add_bus_step (st : Store) (ins : List String) (e : Outcome) (st₂ : Store)
    (h : add_bus st ins = some (e, st₂)) : StoreStepOK st st₂ := by
  unfold add_bus at h
  repeat first
    | split at h
    | exact Option.noConfusion h
    | (injection h with h2; injection h2 with he hst; subst hst;
       exact ⟨fun y hy => Or.inl hy, fun t ht => Or.inl ht, Or.inl rfl⟩)
    | dsimp only at h

/-- The commit step of update_bus leaves years, terms and payments untouched
in both resulting stores. -/
theorem update_bus_commit_step (st : Store) (bus4 : Bus) (e : Outcome) (db mem : Store)
    (h : update_bus_commit st bus4 = some (e, db, mem)) :
    StoreStepOK st db ∧ StoreStepOK st mem := by
  unfold update_bus_commit at h
  repeat first
    | split at h
    | exact Option.noConfusion h
    | (injection h with h2; injection h2 with he h3; injection h3 with hdb hmem;
       subst hdb; subst hmem;
       exact ⟨⟨fun y hy => Or.inl hy, fun t ht => Or.inl ht, Or.inl rfl⟩,
         ⟨fun y hy => Or.inl hy, fun t ht => Or.inl ht, Or.inl rfl⟩⟩)
    | dsimp only at h

/-- The attendant section of update_bus leaves years, terms and payments
untouched in both resulting stores. -/
theorem update_bus_attendant_step (st : Store) (bus3 : Bus) (ins : List String)
    (e : Outcome) (db mem : Store)
    (h : update_bus_attendant st bus3 ins = some (e, db, mem)) :
    StoreStepOK st db ∧ StoreStepOK st mem := by
  unfold update_bus_attendant at h
  repeat first
    | split at h
    | exact Option.noConfusion h
    | exact update_bus_commit_step _ _ _ _ _ h
    | (injection h with h2; injection h2 with he h3; injection h3 with hdb hmem;
       subst hdb; subst hmem;
       exact ⟨⟨fun y hy => Or.inl hy, fun t ht => Or.inl ht, Or.inl rfl⟩,
         ⟨fun y hy => Or.inl hy, fun t ht => Or.inl ht, Or.inl rfl⟩⟩)
    | dsimp only at h

/-- The driver section of update_bus leaves years, terms and payments
untouched in both resulting stores. -/
theorem update_bus_driver_step (st : Store) (bus2 : Bus) (ins : List String)
    (e : Outcome) (db mem : Store)
    (h : update_bus_driver st bus2 ins = some (e, db, mem)) :
    StoreStepOK st db ∧ StoreStepOK st mem := by
  unfold update_bus_driver at h
  repeat first
    | split at h
    | exact Option.noConfusion h
    | exact update_bus_attendant_step _ _ _ _ _ _ h
    | (injection h with h2; injection h2 with he h3; injection h3 with hdb hmem;
       subst hdb; subst hmem;
       exact ⟨⟨fun y hy => Or.inl hy, fun t ht => Or.inl ht, Or.inl rfl⟩,
         ⟨fun y hy => Or.inl hy, fun t ht => Or.inl ht, Or.inl rfl⟩⟩)
    | dsimp only at h

/-- update_bus leaves years, terms and payments untouched in both the
committed and the in-session store. -/
theorem update_bus_step (st : Store) (ins : List String) (e : Outcome) (db mem : Store)
    (h : update_bus st ins = some (e, db, mem)) :
    StoreStepOK st db ∧ StoreStepOK st mem := by
  unfold update_bus at h
  repeat first
    | split at h
    | exact Option.noConfusion h
    | exact update_bus_driver_step _ _ _ _ _ _ h
    | (injection h with h2; injection h2 with he h3; injection h3 with hdb hmem;
       subst hdb; subst hmem;
       exact ⟨⟨fun y hy => Or.inl hy, fun t ht => Or.inl ht, Or.inl rfl⟩,
         ⟨fun y hy => Or.inl hy, fun t ht => Or.inl ht, Or.inl rfl⟩⟩)
    | dsimp only at h

/-- delete_bus leaves years, terms and payments untouched. -/
theorem delete_bus_step (st : Store) (ins : List String) (e : Outcome) (st₂ : Store)
    (h : delete_bus st ins = some (e, st₂)) : StoreStepOK st st₂ := by
  unfold delete_bus at h
  repeat first
    | split at h
    | exact Option.noConfusion h
    | (injection h with h2; injection h2 with he hst; subst hst;
       exact ⟨fun y hy => Or.inl hy, fun t ht => Or.inl ht, Or.inl rfl⟩)
    | dsimp only at h

/-- add_driver leaves years, terms and payments untouched. -/
theorem add_driver_step (st : Store) (ins : List String) (e : Outcome) (st₂ : Store)
    (h : add_driver st ins = some (e, st₂)) : StoreStepOK st st₂ := by
  unfold add_driver at h
  repeat first
    | split at h
    | exact Option.noConfusion h
    | (injection h with h2; injection h2 with he hst; subst hst;
       exact ⟨fun y hy => Or.inl hy, fun t ht => Or.inl ht, Or.inl rfl⟩)
    | dsimp only at h

/-- The commit step of update_driver leaves years, terms and payments
untouched. -/
theorem update_driver_commit_step (st : Store) (driver : Driver)
    (new_name new_phone : String) (lic : Option String) (e : Outcome) (st₂ : Store)
    (h : update_driver_commit st driver new_name new_phone lic = some (e, st₂)) :
    StoreStepOK st st₂ := by
  unfold update_driver_commit at h
  repeat first
    | split at h
    | exact Option.noConfusion h
    | (injection h with h2; injection h2 with he hst; subst hst;
       exact ⟨fun y hy => Or.inl hy, fun t ht => Or.inl ht, Or.inl rfl⟩)
    | dsimp only at h

/-- update_driver leaves years, terms and payments untouched. -/
theorem update_driver_step (st : Store) (ins : List String) (e : Outcome) (st₂ : Store)
    (h : update_driver st ins = some (e, st₂)) : StoreStepOK st st₂ := by
  unfold update_driver at h
  repeat first
    | split at h
    | exact Option.noConfusion h
    | exact update_driver_commit_step _ _ _ _ _ _ _ h
    | (injection h with h2; injection h2 with he hst; subst hst;
       exact ⟨fun y hy => Or.inl hy, fun t ht => Or.inl ht, Or.inl rfl⟩)
    | dsimp only at h

/-- delete_driver leaves years, terms and payments untouched. -/
theorem delete_driver_step (st : Store) (ins : List String) (e : Outcome) (st₂ : Store)
    (h : delete_driver st ins = some (e, st₂)) : StoreStepOK st st₂ := by
  unfold delete_driver at h
  repeat first
    | split at h
    | exact Option.noConfusion h
    | (injection h with h2; injection h2 with he hst; subst hst;
       exact ⟨fun y hy => Or.inl hy, fun t ht => Or.inl ht, Or.inl rfl⟩)
    | dsimp only at h

/-- add_attendant leaves years, terms and payments untouched. -/
theorem add_attendant_step (st : Store) (ins : List String) (e : Outcome) (st₂ : Store)
    (h : add_attendant st ins = some (e, st₂)) : StoreStepOK st st₂ := by
  unfold add_attendant at h
  repeat first
    | split at h
    | exact Option.noConfusion h
    | (injection h with h2; injection h2 with he hst; subst hst;
       exact ⟨fun y hy => Or.inl hy, fun t ht => Or.inl ht, Or.inl rfl⟩)
    | dsimp only at h

/-- update_attendant leaves years, terms and payments untouched. -/
theorem update_attendant_step (st : Store) (ins : List String) (e : Outcome) (st₂ : Store)
    (h : update_attendant st ins = some (e, st₂)) : StoreStepOK st st₂ := by
  unfold update_attendant at h
  repeat first
    | split at h
    | exact Option.noConfusion h
    | (injection h with h2; injection h2 with he hst; subst hst;
       exact ⟨fun y hy => Or.inl hy, fun t ht => Or.inl ht, Or.inl rfl⟩)
    | dsimp only at h

/-- delete_attendant leaves years, terms and payments untouched. -/
theorem delete_attendant_step (st : Store) (ins : List String) (e : Outcome) (st₂ : Store)
    (h : delete_attendant st ins = some (e, st₂)) : StoreStepOK st st₂ := by
  unfold delete_attendant at h
  repeat first
    | split at h
    | exact Option.noConfusion h
    | (injection h with h2; injection h2 with he hst; subst hst;
       exact ⟨fun y hy => Or.inl hy, fun t ht => Or.inl ht, Or.inl rfl⟩)
    | dsimp only at h

/-- add_student leaves years, terms and payments untouched. -/
theorem add_student_step (st : Store) (ins : List String) (e : Outcome) (st₂ : Store)
    (h : add_student st ins = some (e, st₂)) : StoreStepOK st st₂ := by
  unfold add_student at h
  repeat first
    | split at h
    | exact Option.noConfusion h
    | (injection h with h2; injection h2 with he hst; subst hst;
       exact ⟨fun y hy => Or.inl hy, fun t ht => Or.inl ht, Or.inl rfl⟩)
    | dsimp only at h

/-- The commit step of update_student leaves years, terms and payments
untouched. -/
theorem update_student_commit_step (st : Store) (student : Student) (new_name : String)
    (nc na : Option String) (nr : ℚ) (nb : Option Nat) (e : Outcome) (st₂ : Store)
    (h : update_student_commit st student new_name nc na nr nb = some (e, st₂)) :
    StoreStepOK st st₂ := by
  unfold update_student_commit at h
  repeat first
    | split at h
    | exact Option.noConfusion h
    | (injection h with h2; injection h2 with he hst; subst hst;
       exact ⟨fun y hy => Or.inl hy, fun t ht => Or.inl ht, Or.inl rfl⟩)
    | dsimp only at h

/-- The bus stage of update_student leaves years, terms and payments
untouched. -/
theorem update_student_bus_step (st : Store) (student : Student) (nn : String)
    (nc na : Option String) (nr : ℚ) (ins : List String) (e : Outcome) (st₂ : Store)
    (h : update_student_bus st student nn nc na nr ins = some (e, st₂)) :
    StoreStepOK st st₂ := by
  unfold update_student_bus at h
  repeat first
    | split at h
    | exact Option.noConfusion h
    | exact update_student_commit_step _ _ _ _ _ _ _ _ _ h
    | (injection h with h2; injection h2 with he hst; subst hst;
       exact ⟨fun y hy => Or.inl hy, fun t ht => Or.inl ht, Or.inl rfl⟩)
    | dsimp only at h

/-- The rate stage of update_student leaves years, terms and payments
untouched. -/
theorem update_student_rate_step (st : Store) (student : Student) (nn : String)
    (nc na : Option String) (ins : List String) (e : Outcome) (st₂ : Store)
    (h : update_student_rate st student nn nc na ins = some (e, st₂)) :
    StoreStepOK st st₂ := by
  unfold update_student_rate at h
  repeat first
    | split at h
    | exact Option.noConfusion h
    | exact update_student_bus_step _ _ _ _ _ _ _ _ _ h
    | (injection h with h2; injection h2 with he hst; subst hst;
       exact ⟨fun y hy => Or.inl hy, fun t ht => Or.inl ht, Or.inl rfl⟩)
    | dsimp only at h

/-- The address stage of update_student leaves years, terms and payments
untouched. -/
theorem update_student_address_step (st : Store) (student : Student) (nn : String)
    (nc : Option String) (ins : List String) (e : Outcome) (st₂ : Store)
    (h : update_student_address st student nn nc ins = some (e, st₂)) :
    StoreStepOK st st₂ := by
  unfold update_student_address at h
  repeat first
    | split at h
    | exact Option.noConfusion h
    | exact update_student_rate_step _ _ _ _ _ _ _ _ h
    | (injection h with h2; injection h2 with he hst; subst hst;
       exact ⟨fun y hy => Or.inl hy, fun t ht => Or.inl ht, Or.inl rfl⟩)
    | dsimp only at h

/-- The contact stage of update_student leaves years, terms and payments
untouched. -/
theorem update_student_contact_step (st : Store) (student : Student) (nn : String)
    (ins : List String) (e : Outcome) (st₂ : Store)
    (h : update_student_contact st student nn ins = some (e, st₂)) :
    StoreStepOK st st₂ := by
  unfold update_student_contact at h
  repeat first
    | split at h
    | exact Option.noConfusion h
    | exact update_student_address_step _ _ _ _ _ _ _ h
    | (injection h with h2; injection h2 with he hst; subst hst;
       exact ⟨fun y hy => Or.inl hy, fun t ht => Or.inl ht, Or.inl rfl⟩)
    | dsimp only at h

/-- update_student leaves years, terms and payments untouched. -/
theorem update_student_step (st : Store) (ins : List String) (e : Outcome) (st₂ : Store)
    (h : update_student st ins = some (e, st₂)) : StoreStepOK st st₂ := by
  unfold update_student at h
  repeat first
    | split at h
    | exact Option.noConfusion h
    | exact update_student_contact_step _ _ _ _ _ _ h
    | (injection h with h2; injection h2 with he hst; subst hst;
       exact ⟨fun y hy => Or.inl hy, fun t ht => Or.inl ht, Or.inl rfl⟩)
    | dsimp only at h

/-- delete_student leaves years and terms untouched and filters payments. -/
theorem delete_student_step (st : Store) (ins : List String) (e : Outcome) (st₂ : Store)
    (h : delete_student st ins = some (e, st₂)) : StoreStepOK st st₂ := by
  unfold delete_student at h
  repeat first
    | split at h
    | exact Option.noConfusion h
    | (injection h with h2; injection h2 with he hst; subst hst;
       first
         | exact ⟨fun y hy => Or.inl hy, fun t ht => Or.inl ht, Or.inl rfl⟩
         | exact ⟨fun y hy => Or.inl hy, fun t ht => Or.inl ht, Or.inr (Or.inl ⟨_, rfl⟩)⟩)
    | dsimp only at h

/-- delete_payment leaves years and terms untouched and filters payments. -/
theorem delete_payment_step (st : Store) (ins : List String) (e : Outcome) (st₂ : Store)
    (h : delete_payment st ins = some (e, st₂)) : StoreStepOK st st₂ := by
  unfold delete_payment at h
  repeat first
    | split at h
    | exact Option.noConfusion h
    | (injection h with h2; injection h2 with he hst; subst hst;
       first
         | exact ⟨fun y hy => Or.inl hy, fun t ht => Or.inl ht, Or.inl rfl⟩
         | exact ⟨fun y hy => Or.inl hy, fun t ht => Or.inl ht, Or.inr (Or.inl ⟨_, rfl⟩)⟩)
    | dsimp only at h

/-- delete_term filters terms and payments and leaves years untouched. -/
theorem delete_term_step (st : Store) (ins : List String) (e : Outcome) (st₂ : Store)
    (h : delete_term st ins = some (e, st₂)) : StoreStepOK st st₂ := by
  unfold delete_term at h
  repeat first
    | split at h
    | exact Option.noConfusion h
    | (injection h with h2; injection h2 with he hst; subst hst;
       first
         | exact ⟨fun y hy => Or.inl hy, fun t ht => Or.inl ht, Or.inl rfl⟩
         | exact ⟨fun y hy => Or.inl hy, fun t ht => Or.inl (List.mem_filter.mp ht).1,
             Or.inr (Or.inl ⟨_, rfl⟩)⟩)
    | dsimp only at h

/-- delete_academic_year filters years, terms and payments. -/
theorem delete_academic_year_step (st : Store) (ins : List String) (e : Outcome) (st₂ : Store)
    (h : delete_academic_year st ins = some (e, st₂)) : StoreStepOK st st₂ := by
  unfold delete_academic_year at h
  repeat first
    | split at h
    | exact Option.noConfusion h
    | (injection h with h2; injection h2 with he hst; subst hst;
       first
         | exact ⟨fun y hy => Or.inl hy, fun t ht => Or.inl ht, Or.inl rfl⟩
         | exact ⟨fun y hy => Or.inl (List.mem_filter.mp hy).1,
             fun t ht => Or.inl (List.mem_filter.mp ht).1,
             Or.inr (Or.inl ⟨_, rfl⟩)⟩)
    | dsimp only at h

/-- add_academic_year leaves terms and payments untouched and can only append
a year row the store checked. -/
theorem add_academic_year_step (st : Store) (ins : List String) (e : Outcome) (st₂ : Store)
    (h : add_academic_year st ins = some (e, st₂)) : StoreStepOK st st₂ := by
  unfold add_academic_year at h
  repeat' first
    | split at h
    | exact Option.noConfusion h
    | (injection h with h2; injection h2 with he hst; subst hst;
       first
         | exact ⟨fun y hy => Or.inl hy, fun t ht => Or.inl ht, Or.inl rfl⟩
         | (refine ⟨fun y2 hy2 => ?_, fun t ht => Or.inl ht, Or.inl rfl⟩;
            rcases List.mem_append.mp hy2 with h1 | h1;
            exacts [Or.inl h1, Or.inr (by
              rw [List.mem_singleton.mp h1]
              simp_all [yearInsertOk, Bool.and_eq_true])]))
    | simp only [] at h

/-- add_term leaves years and payments untouched and can only append a term
row the store checked. -/
theorem add_term_step (st : Store) (ins : List String) (e : Outcome) (st₂ : Store)
    (h : add_term st ins = some (e, st₂)) : StoreStepOK st st₂ := by
  unfold add_term at h
  repeat' first
    | split at h
    | exact Option.noConfusion h
    | (injection h with h2; injection h2 with he hst; subst hst;
       first
         | exact ⟨fun y hy => Or.inl hy, fun t ht => Or.inl ht, Or.inl rfl⟩
         | (refine ⟨fun y hy => Or.inl hy, fun t2 ht2 => ?_, Or.inl rfl⟩;
            rcases List.mem_append.mp ht2 with h1 | h1;
            exacts [Or.inl h1, Or.inr (by
              rw [List.mem_singleton.mp h1]
              simp_all [termInsertOk, Bool.and_eq_true])]))
    | simp only [] at h

/-- edit_academic_year leaves terms and payments untouched and can only
replace one year row by one the store checked. -/
theorem edit_academic_year_step (st : Store) (ins : List String) (e : Outcome) (st₂ : Store)
    (h : edit_academic_year st ins = some (e, st₂)) : StoreStepOK st st₂ := by
  unfold edit_academic_year at h
  repeat' first
    | split at h
    | exact Option.noConfusion h
    | (injection h with h2; injection h2 with he hst; subst hst;
       first
         | exact ⟨fun y hy => Or.inl hy, fun t ht => Or.inl ht, Or.inl rfl⟩
         | (refine ⟨fun y2 hy2 => ?_, fun t ht => Or.inl ht, Or.inl rfl⟩;
            obtain ⟨z, hz, hz2⟩ := List.mem_map.mp hy2;
            rw [← hz2];
            split;
            exacts [Or.inr (by simp_all [yearUpdateOk, Bool.and_eq_true]), Or.inl hz]))
    | simp only [] at h

/-- The commit of edit_term leaves years and payments untouched and can only
replace one term row by one the store checked. -/
theorem edit_term_commit_step (st : Store) (term : Term) (nn : String)
    (sd ed : PyDate) (yid : Option Nat) (e : Outcome) (st₂ : Store)
    (h : edit_term_commit st term nn sd ed yid = some (e, st₂)) : StoreStepOK st st₂ := by
  unfold edit_term_commit at h
  repeat' first
    | split at h
    | exact Option.noConfusion h
    | (injection h with h2; injection h2 with he hst; subst hst;
       first
         | exact ⟨fun y hy => Or.inl hy, fun t ht => Or.inl ht, Or.inl rfl⟩
         | (refine ⟨fun y hy => Or.inl hy, fun t2 ht2 => ?_, Or.inl rfl⟩;
            obtain ⟨z, hz, hz2⟩ := List.mem_map.mp ht2;
            rw [← hz2];
            split;
            exacts [Or.inr (by simp_all [termUpdateOk, Bool.and_eq_true]), Or.inl hz]))
    | simp only [] at h

/-- The reassignment stage of edit_term inherits the commit bound. -/
theorem edit_term_reassign_step (st : Store) (term : Term) (nn : String)
    (sd ed : PyDate) (ins : List String) (e : Outcome) (st₂ : Store)
    (h : edit_term_reassign st term nn sd ed ins = some (e, st₂)) : StoreStepOK st st₂ := by
  unfold edit_term_reassign at h
  repeat' first
    | split at h
    | exact Option.noConfusion h
    | exact edit_term_commit_step _ _ _ _ _ _ _ _ h
    | (injection h with h2; injection h2 with he hst; subst hst;
       exact ⟨fun y hy => Or.inl hy, fun t ht => Or.inl ht, Or.inl rfl⟩)
    | simp only [] at h

/-- edit_term leaves years and payments untouched and can only replace one
term row by one the store checked. -/
theorem edit_term_step (st : Store) (ins : List String) (e : Outcome) (st₂ : Store)
    (h : edit_term st ins = some (e, st₂)) : StoreStepOK st st₂ := by
  unfold edit_term at h
  repeat' first
    | split at h
    | exact Option.noConfusion h
    | exact edit_term_reassign_step _ _ _ _ _ _ _ _ h
    | (injection h with h2; injection h2 with he hst; subst hst;
       exact ⟨fun y hy => Or.inl hy, fun t ht => Or.inl ht, Or.inl rfl⟩)
    | simp only [] at h

/-- Every non-committing branch returns the failure outcome with the store
unchanged. -/
theorem not_ok_case {A : Prop} {st st₂ : Store} {e e0 : Outcome}
    (h : some (e0, st) = some (e, st₂)) (hne : e0 ≠ .ok) : A ∨ (e ≠ .ok ∧ st₂ = st) := by
  injection h with h2
  injection h2 with he hst
  exact Or.inr ⟨fun hok => hne (he.trans hok), hst.symm⟩

/-- Full characterisation of add_payment: on a commit the table gains exactly
one row whose balance is the rate of the owning student minus the amount,
clamped at zero, whose key clashes with no existing row and whose id is
fresh; on any other outcome the store is unchanged. -/
theorem add_payment_spec (st : Store) (ins : List String) (e : Outcome) (st₂ : Store)
    (h : add_payment st ins = some (e, st₂)) :
    (e = .ok ∧ ∃ p student,
        st₂ = { st with payments := st.payments ++ [p] }
        ∧ student ∈ st.students
        ∧ p.student_id = student.id
        ∧ p.id = nextId (st.payments.map (fun q => q.id))
        ∧ p.balance_carried = max 0 (student.monthly_rate - p.amount_paid)
        ∧ paymentRowOk p = true
        ∧ (∀ q ∈ st.payments, ¬(q.student_id = p.student_id ∧ q.term_id = p.term_id
            ∧ q.week_number = p.week_number)))
    ∨ (e ≠ .ok ∧ st₂ = st) := by
  unfold add_payment at h
  repeat' first
    | split at h
    | exact Option.noConfusion h
    | exact not_ok_case h (by decide)
    | simp only [] at h
  all_goals
    injection h with h2
  all_goals
    injection h2 with he hst
  all_goals
    subst hst
  all_goals
    rename_i hstu hte a1 a2 a3 a4 a5 a6 trm htrm a7 a8 a9 a10 a11 a12 amt hfl a13 a14 a15 a16 hdup hins
  all_goals
    exact Or.inl ⟨he.symm, _, _, rfl, List.mem_of_find?_eq_some hstu, rfl, rfl, rfl,
      by
        unfold paymentInsertOk at hins
        rw [Bool.and_eq_true] at hins
        exact hins.1,
      by
        intro q hq hcon
        apply List.find?_eq_none.mp hdup q hq
        have hs := List.find?_some hstu
        have htm2 := List.find?_some htrm
        simp only [beq_iff_eq] at hs htm2
        rw [hcon.1, hcon.2.1, hcon.2.2]
        simp only [Bool.and_eq_true, beq_iff_eq]
        exact ⟨⟨hs, htm2⟩, trivial⟩⟩

/-- add_payment satisfies the per-operation effect bound. -/
theorem add_payment_step (st : Store) (ins : List String) (e : Outcome) (st₂ : Store)
    (h : add_payment st ins = some (e, st₂)) : StoreStepOK st st₂ := by
  rcases add_payment_spec st ins e st₂ h with
    ⟨he, p, student, hst2, hmem, hsid, hpid, hbal, hrow, hnodup⟩ | ⟨hne, rfl⟩
  · subst hst2
    refine ⟨fun y hy => Or.inl hy, fun t ht => Or.inl ht,
      Or.inr (Or.inr (Or.inr ⟨p, rfl, ?_, ?_⟩))⟩
    · intro q hq
      rw [hpid]
      exact nextId_fresh _ q.id (List.mem_map_of_mem _ hq)
    · intro q hq htr
      apply hnodup q hq
      simp only [tripleOf, Prod.mk.injEq] at htr
      exact ⟨htr.1, htr.2.1, htr.2.2⟩
  · exact ⟨fun y hy => Or.inl hy, fun t ht => Or.inl ht, Or.inl rfl⟩

/-- Full characterisation of update_payment: on a commit either nothing was
changed (blank amount) or exactly one row was replaced in place, keeping its
id and key, with the balance recomputed from the owning student rate and the
new amount; on any other outcome the store is unchanged. -/
theorem update_payment_spec (st : Store) (ins : List String) (e : Outcome) (st₂ : Store)
    (h : update_payment st ins = some (e, st₂)) :
    (e = .ok ∧ (st₂ = st ∨ ∃ payment payment2 student,
        payment ∈ st.payments
        ∧ student ∈ st.students
        ∧ student.id = payment.student_id
        ∧ st₂ = { st with
            payments := st.payments.map (fun q => if q.id == payment.id then payment2 else q) }
        ∧ payment2.id = payment.id
        ∧ tripleOf payment2 = tripleOf payment
        ∧ payment2.balance_carried = max 0 (student.monthly_rate - payment2.amount_paid)))
    ∨ (e ≠ .ok ∧ st₂ = st) := by
  unfold update_payment at h
  repeat' first
    | split at h
    | exact Option.noConfusion h
    | exact not_ok_case h (by decide)
    | (injection h with h2; injection h2 with he hst; subst hst;
       exact Or.inl ⟨he.symm, Or.inl rfl⟩)
    | simp only [] at h
  all_goals
    injection h with h2
  all_goals
    injection h2 with he hst
  all_goals
    subst hst
  all_goals
    rename_i b1 payFound hfp b2 b3 b4 b5 b6 hfl b7 b8 stuFound hfs hupd
  all_goals
    exact Or.inl ⟨he.symm, Or.inr ⟨_, _, _,
      List.mem_of_find?_eq_some payFound, List.mem_of_find?_eq_some b6,
      by
        have hb := List.find?_some b6
        simp only [beq_iff_eq] at hb
        exact hb,
      rfl, rfl, rfl, rfl⟩⟩

/-- update_payment satisfies the per-operation effect bound. -/
theorem update_payment_step (st : Store) (ins : List String) (e : Outcome) (st₂ : Store)
    (h : update_payment st ins = some (e, st₂)) : StoreStepOK st st₂ := by
  rcases update_payment_spec st ins e st₂ h with ⟨he, rfl | hex⟩ | ⟨hne, rfl⟩
  · exact ⟨fun y hy => Or.inl hy, fun t ht => Or.inl ht, Or.inl rfl⟩
  · obtain ⟨payment, payment2, student, hmem, hsmem, hsid, hst2, hid, htr, hbal⟩ := hex
    subst hst2
    exact ⟨fun y hy => Or.inl hy, fun t ht => Or.inl ht,
      Or.inr (Or.inr (Or.inl ⟨payment, payment2, hmem, hid, htr, rfl⟩))⟩
  · exact ⟨fun y hy => Or.inl hy, fun t ht => Or.inl ht, Or.inl rfl⟩

/-- Every menu operation satisfies the effect bound. -/
theorem step_storeStepOK (st st₂ : Store) (h : Step st st₂) : StoreStepOK st st₂ := by
  cases h with
  | add_payment a b c hh => exact add_payment_step _ _ _ _ hh
  | update_payment a b c hh => exact update_payment_step _ _ _ _ hh
  | delete_payment a b c hh => exact delete_payment_step _ _ _ _ hh
  | add_academic_year a b c hh => exact add_academic_year_step _ _ _ _ hh
  | edit_academic_year a b c hh => exact edit_academic_year_step _ _ _ _ hh
  | delete_academic_year a b c hh => exact delete_academic_year_step _ _ _ _ hh
  | add_term a b c hh => exact add_term_step _ _ _ _ hh
  | edit_term a b c hh => exact edit_term_step _ _ _ _ hh
  | delete_term a b c hh => exact delete_term_step _ _ _ _ hh
  | add_bus a b c hh => exact add_bus_step _ _ _ _ hh
  | update_bus a b c d hh => exact (update_bus_step _ _ _ _ _ hh).2
  | delete_bus a b c hh => exact delete_bus_step _ _ _ _ hh
  | add_driver a b c hh => exact add_driver_step _ _ _ _ hh
  | update_driver a b c hh => exact update_driver_step _ _ _ _ hh
  | delete_driver a b c hh => exact delete_driver_step _ _ _ _ hh
  | add_attendant a b c hh => exact add_attendant_step _ _ _ _ hh
  | update_attendant a b c hh => exact update_attendant_step _ _ _ _ hh
  | delete_attendant a b c hh => exact delete_attendant_step _ _ _ _ hh
  | add_student a b c hh => exact add_student_step _ _ _ _ hh
  | update_student a b c hh => exact update_student_step _ _ _ _ hh
  | delete_student a b c hh => exact delete_student_step _ _ _ _ hh

/-- Both payment uniqueness invariants and the date invariant hold in every
reachable store. -/
theorem reachable_invariants (st : Store) (h : ReachableStore st) :
    payIdsDistinct st.payments ∧ payTriplesDistinct st.payments ∧ datesOk st := by
  obtain ⟨d, hr⟩ := h
  induction hr with
  | refl =>
    exact ⟨List.Pairwise.nil, List.Pairwise.nil,
      ⟨fun y hy => absurd hy (List.not_mem_nil y), fun t ht => absurd ht (List.not_mem_nil t)⟩⟩
  | tail hr hstep ih =>
    obtain ⟨hid, htr, hdates⟩ := ih
    have hs := step_storeStepOK _ _ hstep
    obtain ⟨hid2, htr2⟩ := paymentsStep_preserves _ _ hs.2.2 hid htr
    exact ⟨hid2, htr2, storeStepOK_datesOk _ _ hs hdates⟩

/-! ## Rollback behaviour per operation -/

/-- delete_payment never produces a caught store error; on one the store
would be unchanged. -/
theorem delete_payment_dbError (st : Store) (ins : List String) (e : Outcome) (st₂ : Store)
    (h : delete_payment st ins = some (e, st₂)) : e = .dbError → st₂ = st := by
  unfold delete_payment at h
  repeat' first
    | split at h
    | exact Option.noConfusion h
    | (injection h with h2; injection h2 with he hst; subst hst; subst he;
       first | exact fun hdb => Outcome.noConfusion hdb | exact fun hdb => rfl)
    | simp only [] at h

/-- A caught store error in add_bus leaves the store unchanged. -/
theorem add_bus_dbError (st : Store) (ins : List String) (e : Outcome) (st₂ : Store)
    (h : add_bus st ins = some (e, st₂)) : e = .dbError → st₂ = st := by
  unfold add_bus at h
  repeat' first
    | split at h
    | exact Option.noConfusion h
    | (injection h with h2; injection h2 with he hst; subst hst; subst he;
       first | exact fun hdb => Outcome.noConfusion hdb | exact fun hdb => rfl)
    | simp only [] at h

/-- A caught store error in the commit of update_bus rolls both the committed
and the session store back. -/
theorem update_bus_commit_dbError (st : Store) (bus4 : Bus) (e : Outcome) (db mem : Store)
    (h : update_bus_commit st bus4 = some (e, db, mem)) :
    e = .dbError → db = st ∧ mem = st := by
  unfold update_bus_commit at h
  repeat' first
    | split at h
    | exact Option.noConfusion h
    | (injection h with h2; injection h2 with he h3; injection h3 with hdb hmem;
       subst hdb; subst hmem; subst he;
       first | exact fun hx => Outcome.noConfusion hx | exact fun hx => ⟨rfl, rfl⟩)
    | simp only [] at h

/-- A caught store error in the attendant stage of update_bus rolls back. -/
theorem update_bus_attendant_dbError (st : Store) (bus3 : Bus) (ins : List String)
    (e : Outcome) (db mem : Store)
    (h : update_bus_attendant st bus3 ins = some (e, db, mem)) :
    e = .dbError → db = st ∧ mem = st := by
  unfold update_bus_attendant at h
  repeat' first
    | split at h
    | exact Option.noConfusion h
    | exact update_bus_commit_dbError _ _ _ _ _ h
    | (injection h with h2; injection h2 with he h3; injection h3 with hdb hmem;
       subst hdb; subst hmem; subst he;
       first | exact fun hx => Outcome.noConfusion hx | exact fun hx => ⟨rfl, rfl⟩)
    | simp only [] at h

/-- A caught store error in the driver stage of update_bus rolls back. -/
theorem update_bus_driver_dbError (st : Store) (bus2 : Bus) (ins : List String)
    (e : Outcome) (db mem : Store)
    (h : update_bus_driver st bus2 ins = some (e, db, mem)) :
    e = .dbError → db = st ∧ mem = st := by
  unfold update_bus_driver at h
  repeat' first
    | split at h
    | exact Option.noConfusion h
    | exact update_bus_attendant_dbError _ _ _ _ _ _ h
    | (injection h with h2; injection h2 with he h3; injection h3 with hdb hmem;
       subst hdb; subst hmem; subst he;
       first | exact fun hx => Outcome.noConfusion hx | exact fun hx => ⟨rfl, rfl⟩)
    | simp only [] at h

/-- A caught store error in update_bus rolls both stores back. -/
theorem update_bus_dbError (st : Store) (ins : List String) (e : Outcome) (db mem : Store)
    (h : update_bus st ins = some (e, db, mem)) :
    e = .dbError → db = st ∧ mem = st := by
  unfold update_bus at h
  repeat' first
    | split at h
    | exact Option.noConfusion h
    | exact update_bus_driver_dbError _ _ _ _ _ _ h
    | (injection h with h2; injection h2 with he h3; injection h3 with hdb hmem;
       subst hdb; subst hmem; subst he;
       first | exact fun hx => Outcome.noConfusion hx | exact fun hx => ⟨rfl, rfl⟩)
    | simp only [] at h

/-- A caught store error in delete_bus leaves the store unchanged. -/
theorem delete_bus_dbError (st : Store) (ins : List String) (e : Outcome) (st₂ : Store)
    (h : delete_bus st ins = some (e, st₂)) : e = .dbError → st₂ = st := by
  unfold delete_bus at h
  repeat' first
    | split at h
    | exact Option.noConfusion h
    | (injection h with h2; injection h2 with he hst; subst hst; subst he;
       first | exact fun hdb => Outcome.noConfusion hdb | exact fun hdb => rfl)
    | simp only [] at h

/-- A caught store error in add_driver leaves the store unchanged. -/
theorem add_driver_dbError (st : Store) (ins : List String) (e : Outcome) (st₂ : Store)
    (h : add_driver st ins = some (e, st₂)) : e = .dbError → st₂ = st := by
  unfold add_driver at h
  repeat' first
    | split at h
    | exact Option.noConfusion h
    | (injection h with h2; injection h2 with he hst; subst hst; subst he;
       first | exact fun hdb => Outcome.noConfusion hdb | exact fun hdb => rfl)
    | simp only [] at h

/-- A caught store error in the commit of update_driver rolls back. -/
theorem update_driver_commit_dbError (st : Store) (driver : Driver)
    (nn np : String) (lic : Option String) (e : Outcome) (st₂ : Store)
    (h : update_driver_commit st driver nn np lic = some (e, st₂)) :
    e = .dbError → st₂ = st := by
  unfold update_driver_commit at h
  repeat' first
    | split at h
    | exact Option.noConfusion h
    | (injection h with h2; injection h2 with he hst; subst hst; subst he;
       first | exact fun hdb => Outcome.noConfusion hdb | exact fun hdb => rfl)
    | simp only [] at h

/-- A caught store error in update_driver leaves the store unchanged. -/
theorem update_driver_dbError (st : Store) (ins : List String) (e : Outcome) (st₂ : Store)
    (h : update_driver st ins = some (e, st₂)) : e = .dbError → st₂ = st := by
  unfold update_driver at h
  repeat' first
    | split at h
    | exact Option.noConfusion h
    | exact update_driver_commit_dbError _ _ _ _ _ _ _ h
    | (injection h with h2; injection h2 with he hst; subst hst; subst he;
       first | exact fun hdb => Outcome.noConfusion hdb | exact fun hdb => rfl)
    | simp only [] at h

/-- A caught store error in delete_driver leaves the store unchanged. -/
theorem delete_driver_dbError (st : Store) (ins : List String) (e : Outcome) (st₂ : Store)
    (h : delete_driver st ins = some (e, st₂)) : e = .dbError → st₂ = st := by
  unfold delete_driver at h
  repeat' first
    | split at h
    | exact Option.noConfusion h
    | (injection h with h2; injection h2 with he hst; subst hst; subst he;
       first | exact fun hdb => Outcome.noConfusion hdb | exact fun hdb => rfl)
    | simp only [] at h

/-- add_academic_year catches nothing: it never reports a rolled back store
error, and an escaping exception leaves the committed store unchanged. -/
theorem add_academic_year_uncaught (st : Store) (ins : List String) (e : Outcome) (st₂ : Store)
    (h : add_academic_year st ins = some (e, st₂)) :
    e ≠ .dbError ∧ (e = .raised → st₂ = st) := by
  unfold add_academic_year at h
  repeat' first
    | split at h
    | exact Option.noConfusion h
    | (injection h with h2; injection h2 with he hst; subst hst; subst he;
       first
         | exact ⟨fun hdb => Outcome.noConfusion hdb, fun hr => Outcome.noConfusion hr⟩
         | exact ⟨fun hdb => Outcome.noConfusion hdb, fun hr => rfl⟩)
    | simp only [] at h

/-- edit_academic_year catches nothing. -/
theorem edit_academic_year_uncaught (st : Store) (ins : List String) (e : Outcome) (st₂ : Store)
    (h : edit_academic_year st ins = some (e, st₂)) :
    e ≠ .dbError ∧ (e = .raised → st₂ = st) := by
  unfold edit_academic_year at h
  repeat' first
    | split at h
    | exact Option.noConfusion h
    | (injection h with h2; injection h2 with he hst; subst hst; subst he;
       first
         | exact ⟨fun hdb => Outcome.noConfusion hdb, fun hr => Outcome.noConfusion hr⟩
         | exact ⟨fun hdb => Outcome.noConfusion hdb, fun hr => rfl⟩)
    | simp only [] at h

/-- The commit of edit_term catches nothing. -/
theorem edit_term_commit_uncaught (st : Store) (term : Term) (nn : String)
    (sd ed : PyDate) (yid : Option Nat) (e : Outcome) (st₂ : Store)
    (h : edit_term_commit st term nn sd ed yid = some (e, st₂)) :
    e ≠ .dbError ∧ (e = .raised → st₂ = st) := by
  unfold edit_term_commit at h
  repeat' first
    | split at h
    | exact Option.noConfusion h
    | (injection h with h2; injection h2 with he hst; subst hst; subst he;
       first
         | exact ⟨fun hdb => Outcome.noConfusion hdb, fun hr => Outcome.noConfusion hr⟩
         | exact ⟨fun hdb => Outcome.noConfusion hdb, fun hr => rfl⟩)
    | simp only [] at h

/-- The reassignment stage of edit_term catches nothing. -/
theorem edit_term_reassign_uncaught (st : Store) (term : Term) (nn : String)
    (sd ed : PyDate) (ins : List String) (e : Outcome) (st₂ : Store)
    (h : edit_term_reassign st term nn sd ed ins = some (e, st₂)) :
    e ≠ .dbError ∧ (e = .raised → st₂ = st) := by
  unfold edit_term_reassign at h
  repeat' first
    | split at h
    | exact Option.noConfusion h
    | exact edit_term_commit_uncaught _ _ _ _ _ _ _ _ h
    | (injection h with h2; injection h2 with he hst; subst hst; subst he;
       first
         | exact ⟨fun hdb => Outcome.noConfusion hdb, fun hr => Outcome.noConfusion hr⟩
         | exact ⟨fun hdb => Outcome.noConfusion hdb, fun hr => rfl⟩)
    | simp only [] at h

/-- edit_term catches nothing. -/
theorem edit_term_uncaught (st : Store) (ins : List String) (e : Outcome) (st₂ : Store)
    (h : edit_term st ins = some (e, st₂)) :
    e ≠ .dbError ∧ (e = .raised → st₂ = st) := by
  unfold edit_term at h
  repeat' first
    | split at h
    | exact Option.noConfusion h
    | exact edit_term_reassign_uncaught _ _ _ _ _ _ _ _ h
    | (injection h with h2; injection h2 with he hst; subst hst; subst he;
       first
         | exact ⟨fun hdb => Outcome.noConfusion hdb, fun hr => Outcome.noConfusion hr⟩
         | exact ⟨fun hdb => Outcome.noConfusion hdb, fun hr => rfl⟩)
    | simp only [] at h

/-- add_term catches nothing. -/
theorem add_term_uncaught (st : Store) (ins : List String) (e : Outcome) (st₂ : Store)
    (h : add_term st ins = some (e, st₂)) :
    e ≠ .dbError ∧ (e = .raised → st₂ = st) := by
  unfold add_term at h
  repeat' first
    | split at h
    | exact Option.noConfusion h
    | (injection h with h2; injection h2 with he hst; subst hst; subst he;
       first
         | exact ⟨fun hdb => Outcome.noConfusion hdb, fun hr => Outcome.noConfusion hr⟩
         | exact ⟨fun hdb => Outcome.noConfusion hdb, fun hr => rfl⟩)
    | simp only [] at h

/-- delete_academic_year catches nothing. -/
theorem delete_academic_year_uncaught (st : Store) (ins : List String) (e : Outcome) (st₂ : Store)
    (h : delete_academic_year st ins = some (e, st₂)) :
    e ≠ .dbError := by
  unfold delete_academic_year at h
  repeat' first
    | split at h
    | exact Option.noConfusion h
    | (injection h with h2; injection h2 with he hst; subst hst; subst he;
       exact fun hdb => Outcome.noConfusion hdb)
    | simp only [] at h

/-- delete_term catches nothing. -/
theorem delete_term_uncaught (st : Store) (ins : List String) (e : Outcome) (st₂ : Store)
    (h : delete_term st ins = some (e, st₂)) :
    e ≠ .dbError := by
  unfold delete_term at h
  repeat' first
    | split at h
    | exact Option.noConfusion h
    | (injection h with h2; injection h2 with he hst; subst hst; subst he;
       exact fun hdb => Outcome.noConfusion hdb)
    | simp only [] at h

/-- A caught store error in add_attendant leaves the store unchanged. -/
theorem add_attendant_dbError (st : Store) (ins : List String) (e : Outcome) (st₂ : Store)
    (h : add_attendant st ins = some (e, st₂)) : e = .dbError → st₂ = st := by
  unfold add_attendant at h
  repeat' first
    | split at h
    | exact Option.noConfusion h
    | (injection h with h2; injection h2 with he hst; subst hst; subst he;
       first | exact fun hdb => Outcome.noConfusion hdb | exact fun hdb => rfl)
    | simp only [] at h

/-- A caught store error in update_attendant leaves the store unchanged. -/
theorem update_attendant_dbError (st : Store) (ins : List String) (e : Outcome) (st₂ : Store)
    (h : update_attendant st ins = some (e, st₂)) : e = .dbError → st₂ = st := by
  unfold update_attendant at h
  repeat' first
    | split at h
    | exact Option.noConfusion h
    | (injection h with h2; injection h2 with he hst; subst hst; subst he;
       first | exact fun hdb => Outcome.noConfusion hdb | exact fun hdb => rfl)
    | simp only [] at h

/-- A caught store error in delete_attendant leaves the store unchanged. -/
theorem delete_attendant_dbError (st : Store) (ins : List String) (e : Outcome) (st₂ : Store)
    (h : delete_attendant st ins = some (e, st₂)) : e = .dbError → st₂ = st := by
  unfold delete_attendant at h
  repeat' first
    | split at h
    | exact Option.noConfusion h
    | (injection h with h2; injection h2 with he hst; subst hst; subst he;
       first | exact fun hdb => Outcome.noConfusion hdb | exact fun hdb => rfl)
    | simp only [] at h

/-- A caught store error in add_student leaves the store unchanged. -/
theorem add_student_dbError (st : Store) (ins : List String) (e : Outcome) (st₂ : Store)
    (h : add_student st ins = some (e, st₂)) : e = .dbError → st₂ = st := by
  unfold add_student at h
  repeat' first
    | split at h
    | exact Option.noConfusion h
    | (injection h with h2; injection h2 with he hst; subst hst; subst he;
       first | exact fun hdb => Outcome.noConfusion hdb | exact fun hdb => rfl)
    | simp only [] at h

/-- A caught store error in the commit of update_student rolls back. -/
theorem update_student_commit_dbError (st : Store) (student : Student) (nn : String)
    (nc na : Option String) (nr : ℚ) (nb : Option Nat) (e : Outcome) (st₂ : Store)
    (h : update_student_commit st student nn nc na nr nb = some (e, st₂)) :
    e = .dbError → st₂ = st := by
  unfold update_student_commit at h
  repeat' first
    | split at h
    | exact Option.noConfusion h
    | (injection h with h2; injection h2 with he hst; subst hst; subst he;
       first | exact fun hdb => Outcome.noConfusion hdb | exact fun hdb => rfl)
    | simp only [] at h

/-- A caught store error in the bus stage of update_student rolls back. -/
theorem update_student_bus_dbError (st : Store) (student : Student) (nn : String)
    (nc na : Option String) (nr : ℚ) (ins : List String) (e : Outcome) (st₂ : Store)
    (h : update_student_bus st student nn nc na nr ins = some (e, st₂)) :
    e = .dbError → st₂ = st := by
  unfold update_student_bus at h
  repeat' first
    | split at h
    | exact Option.noConfusion h
    | exact update_student_commit_dbError _ _ _ _ _ _ _ _ _ h
    | (injection h with h2; injection h2 with he hst; subst hst; subst he;
       first | exact fun hdb => Outcome.noConfusion hdb | exact fun hdb => rfl)
    | simp only [] at h

/-- A caught store error in the rate stage of update_student rolls back. -/
theorem update_student_rate_dbError (st : Store) (student : Student) (nn : String)
    (nc na : Option String) (ins : List String) (e : Outcome) (st₂ : Store)
    (h : update_student_rate st student nn nc na ins = some (e, st₂)) :
    e = .dbError → st₂ = st := by
  unfold update_student_rate at h
  repeat' first
    | split at h
    | exact Option.noConfusion h
    | exact update_student_bus_dbError _ _ _ _ _ _ _ _ _ h
    | (injection h with h2; injection h2 with he hst; subst hst; subst he;
       first | exact fun hdb => Outcome.noConfusion hdb | exact fun hdb => rfl)
    | simp only [] at h

/-- A caught store error in the address stage of update_student rolls back. -/
theorem update_student_address_dbError (st : Store) (student : Student) (nn : String)
    (nc : Option String) (ins : List String) (e : Outcome) (st₂ : Store)
    (h : update_student_address st student nn nc ins = some (e, st₂)) :
    e = .dbError → st₂ = st := by
  unfold update_student_address at h
  repeat' first
    | split at h
    | exact Option.noConfusion h
    | exact update_student_rate_dbError _ _ _ _ _ _ _ _ h
    | (injection h with h2; injection h2 with he hst; subst hst; subst he;
       first | exact fun hdb => Outcome.noConfusion hdb | exact fun hdb => rfl)
    | simp only [] at h

/-- A caught store error in the contact stage of update_student rolls back. -/
theorem update_student_contact_dbError (st : Store) (student : Student) (nn : String)
    (ins : List String) (e : Outcome) (st₂ : Store)
    (h : update_student_contact st student nn ins = some (e, st₂)) :
    e = .dbError → st₂ = st := by
  unfold update_student_contact at h
  repeat' first
    | split at h
    | exact Option.noConfusion h
    | exact update_student_address_dbError _ _ _ _ _ _ _ h
    | (injection h with h2; injection h2 with he hst; subst hst; subst he;
       first | exact fun hdb => Outcome.noConfusion hdb | exact fun hdb => rfl)
    | simp only [] at h

/-- A caught store error in update_student leaves the store unchanged. -/
theorem update_student_dbError (st : Store) (ins : List String) (e : Outcome) (st₂ : Store)
    (h : update_student st ins = some (e, st₂)) : e = .dbError → st₂ = st := by
  unfold update_student at h
  repeat' first
    | split at h
    | exact Option.noConfusion h
    | exact update_student_contact_dbError _ _ _ _ _ _ h
    | (injection h with h2; injection h2 with he hst; subst hst; subst he;
       first | exact fun hdb => Outcome.noConfusion hdb | exact fun hdb => rfl)
    | simp only [] at h

/-- A caught store error in delete_student leaves the store unchanged. -/
theorem delete_student_dbError (st : Store) (ins : List String) (e : Outcome) (st₂ : Store)
    (h : delete_student st ins = some (e, st₂)) : e = .dbError → st₂ = st := by
  unfold delete_student at h
  repeat' first
    | split at h
    | exact Option.noConfusion h
    | (injection h with h2; injection h2 with he hst; subst hst; subst he;
       first | exact fun hdb => Outcome.noConfusion hdb | exact fun hdb => rfl)
    | simp only [] at h

/-- C4 (amended): a store constraint violation during the payment, bus,
driver, attendant and student operations is caught and the pending
transaction rolled back, the store unchanged, after which control returns to
the menu; but the academic-year and term operations commit without a guard,
so a constraint violation there is never reported as a caught store error:
it escapes as a raised exception with the committed store unchanged, and a
raised exception reaches the outermost handler, which terminates the
process instead of returning to the menu. -/
theorem c4_db_error_containment :
    (∀ st ins e st₂, add_bus st ins = some (e, st₂) → e = .dbError → st₂ = st)
    ∧ (∀ st ins e st₂, add_payment st ins = some (e, st₂) → e = .dbError → st₂ = st)
    ∧ (∀ st ins e st₂, update_payment st ins = some (e, st₂) → e = .dbError → st₂ = st)
    ∧ (∀ st ins e st₂, delete_payment st ins = some (e, st₂) → e = .dbError → st₂ = st)
    ∧ (∀ st ins e db mem, update_bus st ins = some (e, db, mem) →
        e = .dbError → db = st ∧ mem = st)
    ∧ (∀ st ins e st₂, delete_bus st ins = some (e, st₂) → e = .dbError → st₂ = st)
    ∧ (∀ st ins e st₂, add_driver st ins = some (e, st₂) → e = .dbError → st₂ = st)
    ∧ (∀ st ins e st₂, update_driver st ins = some (e, st₂) → e = .dbError → st₂ = st)
    ∧ (∀ st ins e st₂, delete_driver st ins = some (e, st₂) → e = .dbError → st₂ = st)
    ∧ (∀ st ins e st₂, add_attendant st ins = some (e, st₂) → e = .dbError → st₂ = st)
    ∧ (∀ st ins e st₂, update_attendant st ins = some (e, st₂) → e = .dbError → st₂ = st)
    ∧ (∀ st ins e st₂, delete_attendant st ins = some (e, st₂) → e = .dbError → st₂ = st)
    ∧ (∀ st ins e st₂, add_student st ins = some (e, st₂) → e = .dbError → st₂ = st)
    ∧ (∀ st ins e st₂, update_student st ins = some (e, st₂) → e = .dbError → st₂ = st)
    ∧ (∀ st ins e st₂, delete_student st ins = some (e, st₂) → e = .dbError → st₂ = st)
    ∧ control_after .dbError = .menu
    ∧ (∀ st ins e st₂, add_academic_year st ins = some (e, st₂) →
        e ≠ .dbError ∧ (e = .raised → st₂ = st))
    ∧ (∀ st ins e st₂, edit_academic_year st ins = some (e, st₂) →
        e ≠ .dbError ∧ (e = .raised → st₂ = st))
    ∧ (∀ st ins e st₂, add_term st ins = some (e, st₂) →
        e ≠ .dbError ∧ (e = .raised → st₂ = st))
    ∧ (∀ st ins e st₂, edit_term st ins = some (e, st₂) →
        e ≠ .dbError ∧ (e = .raised → st₂ = st))
    ∧ (∀ st ins e st₂, delete_academic_year st ins = some (e, st₂) → e ≠ .dbError)
    ∧ (∀ st ins e st₂, delete_term st ins = some (e, st₂) → e ≠ .dbError)
    ∧ control_after .raised = .exited := by
  refine ⟨fun st ins e st₂ h => add_bus_dbError st ins e st₂ h,
    ?_, ?_,
    fun st ins e st₂ h => delete_payment_dbError st ins e st₂ h,
    fun st ins e db mem h => update_bus_dbError st ins e db mem h,
    fun st ins e st₂ h => delete_bus_dbError st ins e st₂ h,
    fun st ins e st₂ h => add_driver_dbError st ins e st₂ h,
    fun st ins e st₂ h => update_driver_dbError st ins e st₂ h,
    fun st ins e st₂ h => delete_driver_dbError st ins e st₂ h,
    fun st ins e st₂ h => add_attendant_dbError st ins e st₂ h,
    fun st ins e st₂ h => update_attendant_dbError st ins e st₂ h,
    fun st ins e st₂ h => delete_attendant_dbError st ins e st₂ h,
    fun st ins e st₂ h => add_student_dbError st ins e st₂ h,
    fun st ins e st₂ h => update_student_dbError st ins e st₂ h,
    fun st ins e st₂ h => delete_student_dbError st ins e st₂ h,
    rfl,
    fun st ins e st₂ h => add_academic_year_uncaught st ins e st₂ h,
    fun st ins e st₂ h => edit_academic_year_uncaught st ins e st₂ h,
    fun st ins e st₂ h => add_term_uncaught st ins e st₂ h,
    fun st ins e st₂ h => edit_term_uncaught st ins e st₂ h,
    fun st ins e st₂ h => delete_academic_year_uncaught st ins e st₂ h,
    fun st ins e st₂ h => delete_term_uncaught st ins e st₂ h,
    rfl⟩
  · intro st ins e st₂ h hdb
    rcases add_payment_spec st ins e st₂ h with ⟨hok, _⟩ | ⟨_, hst⟩
    · rw [hok] at hdb; exact Outcome.noConfusion hdb
    · exact hst
  · intro st ins e st₂ h hdb
    rcases update_payment_spec st ins e st₂ h with ⟨hok, _⟩ | ⟨_, hst⟩
    · rw [hok] at hdb; exact Outcome.noConfusion hdb
    · exact hst

/-- Witness for C4: a duplicate bus name makes the insert fail at commit; the
caught error leaves the store unchanged, while on the unguarded side a
duplicate academic year name escapes as a raised exception and the control
flow after it is process exit. -/
theorem c4_db_error_containment_witness :
    add_bus busStore ["A", "30", ""] = some (.dbError, busStore)
    ∧ busStore = busStore
    ∧ add_academic_year dupYearStore ["2024/2025", "2025-01-01", "2025-12-31"]
        = some (.raised, dupYearStore)
    ∧ Outcome.raised ≠ Outcome.dbError :=
  ⟨by decide,
    c4_db_error_containment.1 busStore ["A", "30", ""] .dbError busStore (by decide) rfl,
    by decide,
    (c4_db_error_containment.2.2.2.2.2.2.2.2.2.2.2.2.2.2.2.2.1 dupYearStore
      ["2024/2025", "2025-01-01", "2025-12-31"] .raised dupYearStore (by decide)).1.symm.imp
      (fun hx => hx.symm)⟩

/-! ## Cancel behaviour per operation: the committed store is unchanged -/

/-- A cancelled add_bus leaves the store unchanged. -/
theorem add_bus_cancel (st : Store) (ins : List String) (e : Outcome) (st₂ : Store)
    (h : add_bus st ins = some (e, st₂)) : e = .cancelled → st₂ = st := by
  unfold add_bus at h
  repeat' first
    | split at h
    | exact Option.noConfusion h
    | (injection h with h2; injection h2 with he hst; subst hst; subst he;
       first | exact fun hc => Outcome.noConfusion hc | exact fun hc => rfl)
    | simp only [] at h

/-- A cancel at the commit stage of update_bus never happens; vacuously the
committed store is unchanged. -/
theorem update_bus_commit_cancel (st : Store) (bus4 : Bus) (e : Outcome) (db mem : Store)
    (h : update_bus_commit st bus4 = some (e, db, mem)) :
    e = .cancelled → db = st := by
  unfold update_bus_commit at h
  repeat' first
    | split at h
    | exact Option.noConfusion h
    | (injection h with h2; injection h2 with he h3; injection h3 with hdb hmem;
       subst hdb; subst hmem; subst he;
       first | exact fun hc => Outcome.noConfusion hc | exact fun hc => rfl)
    | simp only [] at h

/-- A cancel at the attendant prompt of update_bus leaves the committed store
unchanged. -/
theorem update_bus_attendant_cancel (st : Store) (bus3 : Bus) (ins : List String)
    (e : Outcome) (db mem : Store)
    (h : update_bus_attendant st bus3 ins = some (e, db, mem)) :
    e = .cancelled → db = st := by
  unfold update_bus_attendant at h
  repeat' first
    | split at h
    | exact Option.noConfusion h
    | exact update_bus_commit_cancel _ _ _ _ _ h
    | (injection h with h2; injection h2 with he h3; injection h3 with hdb hmem;
       subst hdb; subst hmem; subst he;
       first | exact fun hc => Outcome.noConfusion hc | exact fun hc => rfl)
    | simp only [] at h

/-- A cancel at the driver prompt of update_bus leaves the committed store
unchanged. -/
theorem update_bus_driver_cancel (st : Store) (bus2 : Bus) (ins : List String)
    (e : Outcome) (db mem : Store)
    (h : update_bus_driver st bus2 ins = some (e, db, mem)) :
    e = .cancelled → db = st := by
  unfold update_bus_driver at h
  repeat' first
    | split at h
    | exact Option.noConfusion h
    | exact update_bus_attendant_cancel _ _ _ _ _ _ h
    | (injection h with h2; injection h2 with he h3; injection h3 with hdb hmem;
       subst hdb; subst hmem; subst he;
       first | exact fun hc => Outcome.noConfusion hc | exact fun hc => rfl)
    | simp only [] at h

/-- A cancel anywhere in update_bus leaves the committed store unchanged. -/
theorem update_bus_cancel (st : Store) (ins : List String) (e : Outcome) (db mem : Store)
    (h : update_bus st ins = some (e, db, mem)) : e = .cancelled → db = st := by
  unfold update_bus at h
  repeat' first
    | split at h
    | exact Option.noConfusion h
    | exact update_bus_driver_cancel _ _ _ _ _ _ h
    | (injection h with h2; injection h2 with he h3; injection h3 with hdb hmem;
       subst hdb; subst hmem; subst he;
       first | exact fun hc => Outcome.noConfusion hc | exact fun hc => rfl)
    | simp only [] at h

/-- A cancelled add_driver leaves the store unchanged. -/
theorem add_driver_cancel (st : Store) (ins : List String) (e : Outcome) (st₂ : Store)
    (h : add_driver st ins = some (e, st₂)) : e = .cancelled → st₂ = st := by
  unfold add_driver at h
  repeat' first
    | split at h
    | exact Option.noConfusion h
    | (injection h with h2; injection h2 with he hst; subst hst; subst he;
       first | exact fun hc => Outcome.noConfusion hc | exact fun hc => rfl)
    | simp only [] at h

/-- A cancel in the commit stage of update_driver never commits. -/
theorem update_driver_commit_cancel (st : Store) (driver : Driver)
    (nn np : String) (lic : Option String) (e : Outcome) (st₂ : Store)
    (h : update_driver_commit st driver nn np lic = some (e, st₂)) :
    e = .cancelled → st₂ = st := by
  unfold update_driver_commit at h
  repeat' first
    | split at h
    | exact Option.noConfusion h
    | (injection h with h2; injection h2 with he hst; subst hst; subst he;
       first | exact fun hc => Outcome.noConfusion hc | exact fun hc => rfl)
    | simp only [] at h

/-- A cancelled update_driver leaves the store unchanged. -/
theorem update_driver_cancel (st : Store) (ins : List String) (e : Outcome) (st₂ : Store)
    (h : update_driver st ins = some (e, st₂)) : e = .cancelled → st₂ = st := by
  unfold update_driver at h
  repeat' first
    | split at h
    | exact Option.noConfusion h
    | exact update_driver_commit_cancel _ _ _ _ _ _ _ h
    | (injection h with h2; injection h2 with he hst; subst hst; subst he;
       first | exact fun hc => Outcome.noConfusion hc | exact fun hc => rfl)
    | simp only [] at h

/-- A cancelled add_attendant leaves the store unchanged. -/
theorem add_attendant_cancel (st : Store) (ins : List String) (e : Outcome) (st₂ : Store)
    (h : add_attendant st ins = some (e, st₂)) : e = .cancelled → st₂ = st := by
  unfold add_attendant at h
  repeat' first
    | split at h
    | exact Option.noConfusion h
    | (injection h with h2; injection h2 with he hst; subst hst; subst he;
       first | exact fun hc => Outcome.noConfusion hc | exact fun hc => rfl)
    | simp only [] at h

/-- A cancelled update_attendant leaves the store unchanged. -/
theorem update_attendant_cancel (st : Store) (ins : List String) (e : Outcome) (st₂ : Store)
    (h : update_attendant st ins = some (e, st₂)) : e = .cancelled → st₂ = st := by
  unfold update_attendant at h
  repeat' first
    | split at h
    | exact Option.noConfusion h
    | (injection h with h2; injection h2 with he hst; subst hst; subst he;
       first | exact fun hc => Outcome.noConfusion hc | exact fun hc => rfl)
    | simp only [] at h

/-- A cancelled add_student leaves the store unchanged. -/
theorem add_student_cancel (st : Store) (ins : List String) (e : Outcome) (st₂ : Store)
    (h : add_student st ins = some (e, st₂)) : e = .cancelled → st₂ = st := by
  unfold add_student at h
  repeat' first
    | split at h
    | exact Option.noConfusion h
    | (injection h with h2; injection h2 with he hst; subst hst; subst he;
       first | exact fun hc => Outcome.noConfusion hc | exact fun hc => rfl)
    | simp only [] at h

/-- A cancel at the commit of update_student never commits. -/
theorem update_student_commit_cancel (st : Store) (student : Student) (nn : String)
    (nc na : Option String) (nr : ℚ) (nb : Option Nat) (e : Outcome) (st₂ : Store)
    (h : update_student_commit st student nn nc na nr nb = some (e, st₂)) :
    e = .cancelled → st₂ = st := by
  unfold update_student_commit at h
  repeat' first
    | split at h
    | exact Option.noConfusion h
    | (injection h with h2; injection h2 with he hst; subst hst; subst he;
       first | exact fun hc => Outcome.noConfusion hc | exact fun hc => rfl)
    | simp only [] at h

/-- A cancel at the bus prompt of update_student leaves the store unchanged. -/
theorem update_student_bus_cancel (st : Store) (student : Student) (nn : String)
    (nc na : Option String) (nr : ℚ) (ins : List String) (e : Outcome) (st₂ : Store)
    (h : update_student_bus st student nn nc na nr ins = some (e, st₂)) :
    e = .cancelled → st₂ = st := by
  unfold update_student_bus at h
  repeat' first
    | split at h
    | exact Option.noConfusion h
    | exact update_student_commit_cancel _ _ _ _ _ _ _ _ _ h
    | (injection h with h2; injection h2 with he hst; subst hst; subst he;
       first | exact fun hc => Outcome.noConfusion hc | exact fun hc => rfl)
    | simp only [] at h

/-- A cancel at the rate prompt of update_student leaves the store unchanged. -/
theorem update_student_rate_cancel (st : Store) (student : Student) (nn : String)
    (nc na : Option String) (ins : List String) (e : Outcome) (st₂ : Store)
    (h : update_student_rate st student nn nc na ins = some (e, st₂)) :
    e = .cancelled → st₂ = st := by
  unfold update_student_rate at h
  repeat' first
    | split at h
    | exact Option.noConfusion h
    | exact update_student_bus_cancel _ _ _ _ _ _ _ _ _ h
    | (injection h with h2; injection h2 with he hst; subst hst; subst he;
       first | exact fun hc => Outcome.noConfusion hc | exact fun hc => rfl)
    | simp only [] at h

/-- A cancel at the address prompt of update_student leaves the store
unchanged. -/
theorem update_student_address_cancel (st : Store) (student : Student) (nn : String)
    (nc : Option String) (ins : List String) (e : Outcome) (st₂ : Store)
    (h : update_student_address st student nn nc ins = some (e, st₂)) :
    e = .cancelled → st₂ = st := by
  unfold update_student_address at h
  repeat' first
    | split at h
    | exact Option.noConfusion h
    | exact update_student_rate_cancel _ _ _ _ _ _ _ _ h
    | (injection h with h2; injection h2 with he hst; subst hst; subst he;
       first | exact fun hc => Outcome.noConfusion hc | exact fun hc => rfl)
    | simp only [] at h

/-- A cancel at the contact prompt of update_student leaves the store
unchanged. -/
theorem update_student_contact_cancel (st : Store) (student : Student) (nn : String)
    (ins : List String) (e : Outcome) (st₂ : Store)
    (h : update_student_contact st student nn ins = some (e, st₂)) :
    e = .cancelled → st₂ = st := by
  unfold update_student_contact at h
  repeat' first
    | split at h
    | exact Option.noConfusion h
    | exact update_student_address_cancel _ _ _ _ _ _ _ h
    | (injection h with h2; injection h2 with he hst; subst hst; subst he;
       first | exact fun hc => Outcome.noConfusion hc | exact fun hc => rfl)
    | simp only [] at h

/-- A cancelled update_student leaves the store unchanged. -/
theorem update_student_cancel (st : Store) (ins : List String) (e : Outcome) (st₂ : Store)
    (h : update_student st ins = some (e, st₂)) : e = .cancelled → st₂ = st := by
  unfold update_student at h
  repeat' first
    | split at h
    | exact Option.noConfusion h
    | exact update_student_contact_cancel _ _ _ _ _ _ h
    | (injection h with h2; injection h2 with he hst; subst hst; subst he;
       first | exact fun hc => Outcome.noConfusion hc | exact fun hc => rfl)
    | simp only [] at h

/-- A cancelled add_academic_year leaves the store unchanged. -/
theorem add_academic_year_cancel (st : Store) (ins : List String) (e : Outcome) (st₂ : Store)
    (h : add_academic_year st ins = some (e, st₂)) : e = .cancelled → st₂ = st := by
  unfold add_academic_year at h
  repeat' first
    | split at h
    | exact Option.noConfusion h
    | (injection h with h2; injection h2 with he hst; subst hst; subst he;
       first | exact fun hc => Outcome.noConfusion hc | exact fun hc => rfl)
    | simp only [] at h

/-- A cancelled edit_academic_year leaves the store unchanged. -/
theorem edit_academic_year_cancel (st : Store) (ins : List String) (e : Outcome) (st₂ : Store)
    (h : edit_academic_year st ins = some (e, st₂)) : e = .cancelled → st₂ = st := by
  unfold edit_academic_year at h
  repeat' first
    | split at h
    | exact Option.noConfusion h
    | (injection h with h2; injection h2 with he hst; subst hst; subst he;
       first | exact fun hc => Outcome.noConfusion hc | exact fun hc => rfl)
    | simp only [] at h

/-- A cancelled add_term leaves the store unchanged. -/
theorem add_term_cancel (st : Store) (ins : List String) (e : Outcome) (st₂ : Store)
    (h : add_term st ins = some (e, st₂)) : e = .cancelled → st₂ = st := by
  unfold add_term at h
  repeat' first
    | split at h
    | exact Option.noConfusion h
    | (injection h with h2; injection h2 with he hst; subst hst; subst he;
       first | exact fun hc => Outcome.noConfusion hc | exact fun hc => rfl)
    | simp only [] at h

/-- A cancel in the commit of edit_term never commits. -/
theorem edit_term_commit_cancel (st : Store) (term : Term) (nn : String)
    (sd ed : PyDate) (yid : Option Nat) (e : Outcome) (st₂ : Store)
    (h : edit_term_commit st term nn sd ed yid = some (e, st₂)) :
    e = .cancelled → st₂ = st := by
  unfold edit_term_commit at h
  repeat' first
    | split at h
    | exact Option.noConfusion h
    | (injection h with h2; injection h2 with he hst; subst hst; subst he;
       first | exact fun hc => Outcome.noConfusion hc | exact fun hc => rfl)
    | simp only [] at h

/-- A cancel at the reassignment prompt of edit_term leaves the store
unchanged. -/
theorem edit_term_reassign_cancel (st : Store) (term : Term) (nn : String)
    (sd ed : PyDate) (ins : List String) (e : Outcome) (st₂ : Store)
    (h : edit_term_reassign st term nn sd ed ins = some (e, st₂)) :
    e = .cancelled → st₂ = st := by
  unfold edit_term_reassign at h
  repeat' first
    | split at h
    | exact Option.noConfusion h
    | exact edit_term_commit_cancel _ _ _ _ _ _ _ _ h
    | (injection h with h2; injection h2 with he hst; subst hst; subst he;
       first | exact fun hc => Outcome.noConfusion hc | exact fun hc => rfl)
    | simp only [] at h

/-- A cancelled edit_term leaves the store unchanged. -/
theorem edit_term_cancel (st : Store) (ins : List String) (e : Outcome) (st₂ : Store)
    (h : edit_term st ins = some (e, st₂)) : e = .cancelled → st₂ = st := by
  unfold edit_term at h
  repeat' first
    | split at h
    | exact Option.noConfusion h
    | exact edit_term_reassign_cancel _ _ _ _ _ _ _ _ h
    | (injection h with h2; injection h2 with he hst; subst hst; subst he;
       first | exact fun hc => Outcome.noConfusion hc | exact fun hc => rfl)
    | simp only [] at h

/-- C3 (amended): where a prompt is read through get_valid_input and the
cancellation is honoured, a cancel token aborts the operation with the
committed store exactly as it was.  But the token is not a universal abort:
the payment prompts are raw reads that never honour it, so neither payment
operation ever reports a cancellation and a cancel typed at the week prompt
of add_payment is read as a non-numeric entry and a general payment row is
committed; the edit flows swallow an honoured cancel into the current field
value and still commit; and a cancelled update_bus, while leaving the
committed store unchanged, leaves pending in-session writes behind. -/
theorem c3_cancel_leaves_committed_store :
    (∀ st ins e db mem, update_bus st ins = some (e, db, mem) → e = .cancelled → db = st)
    ∧ (∀ st ins e st₂, add_bus st ins = some (e, st₂) → e = .cancelled → st₂ = st)
    ∧ (∀ st ins e st₂, add_driver st ins = some (e, st₂) → e = .cancelled → st₂ = st)
    ∧ (∀ st ins e st₂, update_driver st ins = some (e, st₂) → e = .cancelled → st₂ = st)
    ∧ (∀ st ins e st₂, add_attendant st ins = some (e, st₂) → e = .cancelled → st₂ = st)
    ∧ (∀ st ins e st₂, update_attendant st ins = some (e, st₂) → e = .cancelled → st₂ = st)
    ∧ (∀ st ins e st₂, add_student st ins = some (e, st₂) → e = .cancelled → st₂ = st)
    ∧ (∀ st ins e st₂, update_student st ins = some (e, st₂) → e = .cancelled → st₂ = st)
    ∧ (∀ st ins e st₂, add_academic_year st ins = some (e, st₂) → e = .cancelled → st₂ = st)
    ∧ (∀ st ins e st₂, edit_academic_year st ins = some (e, st₂) → e = .cancelled → st₂ = st)
    ∧ (∀ st ins e st₂, add_term st ins = some (e, st₂) → e = .cancelled → st₂ = st)
    ∧ (∀ st ins e st₂, edit_term st ins = some (e, st₂) → e = .cancelled → st₂ = st)
    ∧ (∀ st ins e st₂, add_payment st ins = some (e, st₂) → e ≠ .cancelled)
    ∧ (∀ st ins e st₂, update_payment st ins = some (e, st₂) → e ≠ .cancelled)
    ∧ (add_payment payStore ["1", "1", "cancel", "25"] = some (.ok, payStoreGeneral)
        ∧ payStoreGeneral ≠ payStore)
    ∧ (edit_academic_year dupYearStore ["1", "NewName", "cancel", "cancel"]
          = some (.ok, dupYearStoreRenamed)
        ∧ dupYearStoreRenamed ≠ dupYearStore)
    ∧ ∃ st ins db mem, update_bus st ins = some (.cancelled, db, mem)
        ∧ db = st ∧ mem ≠ st := by
  refine ⟨fun st ins e db mem h => update_bus_cancel st ins e db mem h,
    fun st ins e st₂ h => add_bus_cancel st ins e st₂ h,
    fun st ins e st₂ h => add_driver_cancel st ins e st₂ h,
    fun st ins e st₂ h => update_driver_cancel st ins e st₂ h,
    fun st ins e st₂ h => add_attendant_cancel st ins e st₂ h,
    fun st ins e st₂ h => update_attendant_cancel st ins e st₂ h,
    fun st ins e st₂ h => add_student_cancel st ins e st₂ h,
    fun st ins e st₂ h => update_student_cancel st ins e st₂ h,
    fun st ins e st₂ h => add_academic_year_cancel st ins e st₂ h,
    fun st ins e st₂ h => edit_academic_year_cancel st ins e st₂ h,
    fun st ins e st₂ h => add_term_cancel st ins e st₂ h,
    fun st ins e st₂ h => edit_term_cancel st ins e st₂ h,
    ?_, ?_, ⟨?_, by decide⟩, ⟨by decide, by decide⟩,
    busStore, ["1", "B", "40", "cancel"], busStore, busStoreMem,
    by decide, rfl, by decide⟩
  · intro st ins e st₂ h
    unfold add_payment at h
    repeat' first
      | split at h
      | exact Option.noConfusion h
      | (injection h with h2; injection h2 with he hst; subst hst; subst he;
         exact fun hc => Outcome.noConfusion hc)
      | simp only [] at h
  · intro st ins e st₂ h
    unfold update_payment at h
    repeat' first
      | split at h
      | exact Option.noConfusion h
      | (injection h with h2; injection h2 with he hst; subst hst; subst he;
         exact fun hc => Outcome.noConfusion hc)
      | simp only [] at h
  · have hc2 : Char.toNat '2' = 50 := rfl
    have hc5 : Char.toNat '5' = 53 := rfl
    unfold add_payment
    norm_num +decide [payStore, payStoreGeneral, alice, term1, yr2024, dJan, pyStrip,
      stripChars, isSpaceChar, pyInt?, pyIsdigit, isDigits, digitsVal, digitsNat, pyFloat?,
      splitOnChar, weekTruthyOutOfRange, nextId, paymentInsertOk, paymentRowOk,
      paymentSqlConflict, someEqNat, List.dropWhile_cons, List.dropWhile_nil, hc2, hc5]

/-- Witness for C3: cancelling add_bus at its first prompt leaves the store
unchanged, while a concrete rejected add_payment run shows the payment path
reporting an error, never a cancellation. -/
theorem c3_cancel_leaves_committed_store_witness :
    add_bus busStore ["cancel"] = some (.cancelled, busStore)
    ∧ busStore = busStore
    ∧ add_payment payStore1 ["1", "1", "1", "10"]
        = some (.err .duplicatePayment, payStore1)
    ∧ Outcome.err .duplicatePayment ≠ .cancelled :=
  ⟨by decide,
    c3_cancel_leaves_committed_store.2.1 busStore ["cancel"] .cancelled busStore
      (by decide) rfl,
    by decide,
    c3_cancel_leaves_committed_store.2.2.2.2.2.2.2.2.2.2.2.2.1 payStore1
      ["1", "1", "1", "10"] (.err .duplicatePayment) payStore1 (by decide)⟩

/-- C2: in every reachable store the payment key triple is unique, and an
add_payment whose (student, term, week) triple already exists is rejected as
a duplicate with the store unchanged. -/
theorem c2_payment_key_unique :
    (∀ st : Store, ReachableStore st → paymentsTripleUnique st)
    ∧ (∀ (st : Store) (i1 i2 i3 : String) (rest : List String) (e : Outcome) (st₂ : Store)
        (sid tid : Int) (student : Student) (term : Term),
        add_payment st (i1 :: i2 :: i3 :: rest) = some (e, st₂) →
        pyInt? (pyStrip i1) = some sid →
        st.students.find? (fun s => (s.id : Int) == sid) = some student →
        pyInt? (pyStrip i2) = some tid →
        st.terms.find? (fun t => (t.id : Int) == tid) = some term →
        weekTruthyOutOfRange (if !(pyStrip i3).data.isEmpty && pyIsdigit (pyStrip i3)
          then some (digitsNat (pyStrip i3)) else none) = false →
        (∃ p ∈ st.payments,
            (p.student_id : Int) = sid ∧ (p.term_id : Int) = tid
            ∧ p.week_number = (if !(pyStrip i3).data.isEmpty && pyIsdigit (pyStrip i3)
                then some (digitsNat (pyStrip i3)) else none)) →
        e = .err .duplicatePayment ∧ st₂ = st) := by
  constructor
  · intro st hr
    exact payTriples_to_unique st (reachable_invariants st hr).2.1
  · intro st i1 i2 i3 rest e st₂ sid tid student term h hp1 hf1 hp2 hf2 hto hdup
    obtain ⟨p, hpmem, hps, hpt, hpw⟩ := hdup
    have hne1 : st.students.isEmpty = false := by
      cases hs : st.students with
      | nil => rw [hs] at hf1; exact Option.noConfusion hf1
      | cons a l => rfl
    have hne2 : st.terms.isEmpty = false := by
      cases hs : st.terms with
      | nil => rw [hs] at hf2; exact Option.noConfusion hf2
      | cons a l => rfl
    unfold add_payment at h
    simp only [hne1, hne2, hp1, hf1, hp2, hf2, Bool.false_eq_true, if_false] at h
    rw [hto] at h
    simp only [Bool.false_eq_true, if_false] at h
    have hex : ∃ q, q ∈ st.payments ∧ ((fun q => (q.student_id : Int) == sid
        && (q.term_id : Int) == tid
        && q.week_number == (if !(pyStrip i3).data.isEmpty && pyIsdigit (pyStrip i3)
            then some (digitsNat (pyStrip i3)) else none)) q) = true := by
      refine ⟨p, hpmem, ?_⟩
      simp only [hps, hpt, hpw, beq_self_eq_true, Bool.and_self, Bool.and_eq_true]
    have hsome : (st.payments.find? (fun q => (q.student_id : Int) == sid
        && (q.term_id : Int) == tid
        && q.week_number == (if !(pyStrip i3).data.isEmpty && pyIsdigit (pyStrip i3)
            then some (digitsNat (pyStrip i3)) else none))).isSome := by
      rw [List.find?_isSome]
      obtain ⟨q, hq1, hq2⟩ := hex
      exact ⟨q, hq1, hq2⟩
    obtain ⟨q, hfq⟩ := Option.isSome_iff_exists.mp hsome
    rw [hfq] at h
    injection h with h2
    injection h2 with he hst
    exact ⟨he.symm, hst.symm⟩

/-- Witness for C2: the empty store is reachable and key-unique, and adding a
second week-1 payment for Alice in term 1 is rejected as a duplicate. -/
theorem c2_payment_key_unique_witness :
    paymentsTripleUnique (emptyStore dJan)
    ∧ (Outcome.err .duplicatePayment = Outcome.err .duplicatePayment
        ∧ payStore1 = payStore1) :=
  ⟨c2_payment_key_unique.1 (emptyStore dJan) ⟨dJan, Relation.ReflTransGen.refl⟩,
    c2_payment_key_unique.2 payStore1 "1" "1" "1" ["10"] (.err .duplicatePayment) payStore1
      1 1 alice term1 (by decide) (by decide) (by decide) (by decide) (by decide) (by decide)
      ⟨alicePay, by decide, by decide, by decide, by decide⟩⟩

/-- A successful update_payment run either had a blank amount and wrote
nothing, or updated exactly the selected row in place, with the key fields
kept and the balance recomputed from the owning student monthly rate. -/
theorem update_payment_ok_blank_cases (st : Store) (i1 i2 : String) (rest : List String)
    (e : Outcome) (st₂ : Store)
    (h : update_payment st (i1 :: i2 :: rest) = some (e, st₂)) (hok : e = .ok) :
    ((pyStrip i2).data.isEmpty = true ∧ st₂ = st)
    ∨ ((pyStrip i2).data.isEmpty = false ∧ ∃ payment payment2 student,
        payment ∈ st.payments ∧ student ∈ st.students ∧ student.id = payment.student_id
        ∧ st₂ = { st with
            payments := st.payments.map (fun q => if q.id == payment.id then payment2 else q) }
        ∧ payment2.id = payment.id
        ∧ tripleOf payment2 = tripleOf payment
        ∧ payment2.balance_carried = max 0 (student.monthly_rate - payment2.amount_paid)) := by
  subst hok
  unfold update_payment at h
  repeat' first
    | split at h
    | exact Option.noConfusion h
    | (injection h with h2; injection h2 with he hst; subst hst;
       exact Outcome.noConfusion he)
    | simp only [] at h
  · rename_i r1 hconseq ox hstu hblank
    injection h with h2
    injection h2 with he hst
    subst hst
    injection hconseq with hA hr
    injection hr with hB hr2
    subst hB
    exact Or.inl ⟨hblank, rfl⟩
  · rename_i hconseq ox stuv hstu hblank
    injection h with h2
    injection h2 with he hst
    subst hst
    injection hconseq with hA hr
    injection hr with hB hr2
    subst hB
    exact Or.inl ⟨hblank, rfl⟩
  · rename_i o1 payment hpayfind o2 iv rv hconseq o3 student hstufind hblankf o4 amount
      hfloat hneg hupd
    injection h with h2
    injection h2 with he hst
    subst hst
    injection hconseq with hA hr
    injection hr with hB hr2
    subst hB
    have hbf : (pyStrip i2).data.isEmpty = false := by simpa using hblankf
    refine Or.inr ⟨hbf, _, _, _, List.mem_of_find?_eq_some hpayfind,
      List.mem_of_find?_eq_some hstufind, ?_, rfl, rfl, rfl, rfl⟩
    have hb := List.find?_some hstufind
    simp only [beq_iff_eq] at hb
    exact hb

/-- C1: a successful add_payment appends one row whose balance_carried is
max(0, monthly_rate - amount_paid) for the owning student; a successful
update_payment with a blank amount writes nothing, and with a supplied
amount rewrites only the selected row, keeping its key and recomputing the
balance from the owning student monthly rate by the same formula. -/
theorem c1_balance_carried_formula :
    (∀ st ins e st₂, add_payment st ins = some (e, st₂) → e = .ok →
        ∃ p student, st₂ = { st with payments := st.payments ++ [p] }
          ∧ student ∈ st.students ∧ p.student_id = student.id
          ∧ p.balance_carried = max 0 (student.monthly_rate - p.amount_paid))
    ∧ (∀ st i1 i2 rest e st₂, update_payment st (i1 :: i2 :: rest) = some (e, st₂) →
        e = .ok →
        ((pyStrip i2).data.isEmpty = true → st₂ = st)
        ∧ ((pyStrip i2).data.isEmpty = false → ∃ payment payment2 student,
            payment ∈ st.payments ∧ student ∈ st.students
            ∧ student.id = payment.student_id
            ∧ st₂ = { st with payments :=
                st.payments.map (fun q => if q.id == payment.id then payment2 else q) }
            ∧ payment2.id = payment.id
            ∧ tripleOf payment2 = tripleOf payment
            ∧ payment2.balance_carried = max 0 (student.monthly_rate - payment2.amount_paid))) := by
  constructor
  · intro st ins e st₂ h hok
    rcases add_payment_spec st ins e st₂ h with
      ⟨_, p, student, hst, hmem, hsid, _, hbal, _, _⟩ | ⟨hne, _⟩
    · exact ⟨p, student, hst, hmem, hsid, hbal⟩
    · exact absurd hok hne
  · intro st i1 i2 rest e st₂ h hok
    rcases update_payment_ok_blank_cases st i1 i2 rest e st₂ h hok with ⟨hb, hst⟩ | ⟨hb, hex⟩
    · exact ⟨fun _ => hst, fun hf => Bool.noConfusion (hb.symm.trans hf)⟩
    · exact ⟨fun ht => Bool.noConfusion (hb.symm.trans ht), fun _ => hex⟩

/-- Witness for C1: recording a 25.0 payment for Alice at rate 50.0 stores
balance 25.0, and a blank-amount update leaves the store intact. -/
theorem c1_balance_carried_formula_witness :
    (∃ p student, payStore1 = { payStore with payments := payStore.payments ++ [p] }
        ∧ student ∈ payStore.students ∧ p.student_id = student.id
        ∧ p.balance_carried = max 0 (student.monthly_rate - p.amount_paid))
    ∧ payStore1 = payStore1 := by
  have hrun1 : add_payment payStore ["1", "1", "1", "25"] = some (.ok, payStore1) := by
    have hc2 : Char.toNat '2' = 50 := rfl
    have hc5 : Char.toNat '5' = 53 := rfl
    unfold add_payment
    norm_num +decide [payStore, payStore1, alicePay, alice, term1, yr2024, dJan, pyStrip,
      stripChars, isSpaceChar, pyInt?, pyIsdigit, isDigits, digitsVal, digitsNat, pyFloat?,
      splitOnChar, weekTruthyOutOfRange, nextId, paymentInsertOk, paymentRowOk,
      paymentSqlConflict, someEqNat, List.dropWhile_cons, List.dropWhile_nil, hc2, hc5]
  have hrun3 : update_payment payStore1 ["1", "  "] = some (.ok, payStore1) := by decide
  exact ⟨c1_balance_carried_formula.1 payStore ["1", "1", "1", "25"] .ok payStore1 hrun1 rfl,
    (c1_balance_carried_formula.2 payStore1 "1" "  " [] .ok payStore1 hrun3 rfl).1 (by decide)⟩

/-- Nonempty follows from an all-digit test. -/
theorem pyIsdigit_nonempty (s : String) (h : pyIsdigit s = true) :
    s.data.isEmpty = false := by
  unfold pyIsdigit isDigits at h
  rw [Bool.and_eq_true] at h
  cases hx : s.data.isEmpty
  · rfl
  · rw [hx] at h; exact Bool.noConfusion h.1

/-- C5 (amended): a successful add_payment only ever writes a row whose week
number is null or between 1 and 20, and a rejected one writes nothing; a
week entry above 20 is caught by the menu check and reported; but a
non-numeric week entry is not rejected: it silently falls back to a general
payment row with a null week, which is written; and a week entry of 0 passes
the truthiness-based menu check and is only stopped by the store CHECK
constraint, reported as a store error. -/
theorem c5_week_number_validation :
    (∀ st ins e st₂, add_payment st ins = some (e, st₂) → e = .ok →
        ∃ p, st₂.payments = st.payments ++ [p]
          ∧ (p.week_number = none ∨ ∃ n, p.week_number = some n ∧ 1 ≤ n ∧ n ≤ 20))
    ∧ (∀ st ins e st₂, add_payment st ins = some (e, st₂) → e ≠ .ok → st₂ = st)
    ∧ (∀ (st : Store) (i1 i2 i3 : String) (rest : List String) (sid tid : Int)
        (student : Student) (term : Term),
        pyInt? (pyStrip i1) = some sid →
        st.students.find? (fun s => (s.id : Int) == sid) = some student →
        pyInt? (pyStrip i2) = some tid →
        st.terms.find? (fun t => (t.id : Int) == tid) = some term →
        pyIsdigit (pyStrip i3) = true → 20 < digitsNat (pyStrip i3) →
        add_payment st (i1 :: i2 :: i3 :: rest) = some (.err .badWeek, st))
    ∧ (∀ (st : Store) (i1 i2 i3 i4 : String) (rest : List String) (sid tid : Int)
        (student : Student) (term : Term) (a : ℚ),
        pyInt? (pyStrip i1) = some sid →
        st.students.find? (fun s => (s.id : Int) == sid) = some student →
        pyInt? (pyStrip i2) = some tid →
        st.terms.find? (fun t => (t.id : Int) == tid) = some term →
        pyIsdigit (pyStrip i3) = true → digitsNat (pyStrip i3) = 0 →
        st.payments.find? (fun p => (p.student_id : Int) == sid
          && (p.term_id : Int) == tid
          && p.week_number == some (digitsNat (pyStrip i3))) = none →
        pyFloat? (pyStrip i4) = some a → ¬(a < 0) →
        add_payment st (i1 :: i2 :: i3 :: i4 :: rest) = some (.dbError, st))
    ∧ (∀ (st : Store) (i1 i2 i3 i4 : String) (rest : List String) (sid tid : Int)
        (student : Student) (term : Term) (a : ℚ),
        pyInt? (pyStrip i1) = some sid →
        st.students.find? (fun s => (s.id : Int) == sid) = some student →
        pyInt? (pyStrip i2) = some tid →
        st.terms.find? (fun t => (t.id : Int) == tid) = some term →
        pyIsdigit (pyStrip i3) = false →
        st.payments.find? (fun p => (p.student_id : Int) == sid
          && (p.term_id : Int) == tid
          && p.week_number == (none : Option Nat)) = none →
        pyFloat? (pyStrip i4) = some a → ¬(a < 0) →
        add_payment st (i1 :: i2 :: i3 :: i4 :: rest) = some (.ok, { st with
          payments := st.payments ++ [⟨nextId (st.payments.map (fun q => q.id)),
            student.id, term.id, none, a,
            max 0 (student.monthly_rate - a), st.today⟩] })) := by
  refine ⟨?_, ?_, ?_, ?_, ?_⟩
  · intro st ins e st₂ h hok
    rcases add_payment_spec st ins e st₂ h with
      ⟨_, p, student, hst, _, _, _, _, hrow, _⟩ | ⟨hne, _⟩
    · refine ⟨p, by rw [hst], ?_⟩
      unfold paymentRowOk at hrow
      rw [Bool.and_eq_true, Bool.and_eq_true] at hrow
      cases hw : p.week_number with
      | none => exact Or.inl rfl
      | some n =>
        rw [hw] at hrow
        have h3 := hrow.2
        rw [Bool.and_eq_true, decide_eq_true_eq, decide_eq_true_eq] at h3
        exact Or.inr ⟨n, rfl, h3.1, h3.2⟩
    · exact absurd hok hne
  · intro st ins e st₂ h hne
    rcases add_payment_spec st ins e st₂ h with ⟨hok, _⟩ | ⟨_, hst⟩
    · exact absurd hok hne
    · exact hst
  · intro st i1 i2 i3 rest sid tid student term hp1 hf1 hp2 hf2 hdig h20
    have hne1 : st.students.isEmpty = false := by
      cases hs : st.students with
      | nil => rw [hs] at hf1; exact Option.noConfusion hf1
      | cons a l => rfl
    have hne2 : st.terms.isEmpty = false := by
      cases hs : st.terms with
      | nil => rw [hs] at hf2; exact Option.noConfusion hf2
      | cons a l => rfl
    have hnb : (pyStrip i3).data.isEmpty = false := pyIsdigit_nonempty _ hdig
    have hwt : weekTruthyOutOfRange (some (digitsNat (pyStrip i3))) = true := by
      have h0 : (digitsNat (pyStrip i3) == 0) = false := by
        rw [beq_eq_false_iff_ne]; omega
      have hgt : decide (digitsNat (pyStrip i3) > 20) = true := by
        rw [decide_eq_true_eq]; exact h20
      unfold weekTruthyOutOfRange
      simp only [h0, hgt, Bool.not_false, Bool.or_true, Bool.and_true]
    unfold add_payment
    simp only [hne1, hne2, hp1, hf1, hp2, hf2, hnb, hdig, Bool.false_eq_true, if_false,
      Bool.not_false, Bool.and_self, if_true, hwt, Bool.true_and]
  · intro st i1 i2 i3 i4 rest sid tid student term a hp1 hf1 hp2 hf2 hdig h0 hdup hfl hna
    have hne1 : st.students.isEmpty = false := by
      cases hs : st.students with
      | nil => rw [hs] at hf1; exact Option.noConfusion hf1
      | cons a l => rfl
    have hne2 : st.terms.isEmpty = false := by
      cases hs : st.terms with
      | nil => rw [hs] at hf2; exact Option.noConfusion hf2
      | cons a l => rfl
    have hnb : (pyStrip i3).data.isEmpty = false := pyIsdigit_nonempty _ hdig
    have hwt : weekTruthyOutOfRange (some (digitsNat (pyStrip i3))) = false := by
      unfold weekTruthyOutOfRange
      rw [h0]
      rfl
    have hrow : paymentRowOk ⟨nextId (st.payments.map (fun q => q.id)),
        student.id, term.id, some (digitsNat (pyStrip i3)), a,
        max 0 (student.monthly_rate - a), st.today⟩ = false := by
      unfold paymentRowOk
      rw [h0]
      simp
    unfold add_payment
    simp only [hne1, hne2, hp1, hf1, hp2, hf2, hnb, hdig, Bool.false_eq_true, if_false,
      Bool.not_false, Bool.and_self, if_true, hwt, hdup, hfl, if_neg hna]
    unfold paymentInsertOk
    rw [hrow]
    simp
  · intro st i1 i2 i3 i4 rest sid tid student term a hp1 hf1 hp2 hf2 hdig hdup hfl hna
    have hne1 : st.students.isEmpty = false := by
      cases hs : st.students with
      | nil => rw [hs] at hf1; exact Option.noConfusion hf1
      | cons a l => rfl
    have hne2 : st.terms.isEmpty = false := by
      cases hs : st.terms with
      | nil => rw [hs] at hf2; exact Option.noConfusion hf2
      | cons a l => rfl
    have hins : paymentInsertOk st.payments ⟨nextId (st.payments.map (fun q => q.id)),
        student.id, term.id, none, a, max 0 (student.monthly_rate - a), st.today⟩ = true := by
      unfold paymentInsertOk paymentRowOk
      simp only [Bool.and_eq_true, decide_eq_true_eq]
      refine ⟨⟨⟨not_lt.mp hna, le_max_left 0 _⟩, trivial⟩, ?_⟩
      rw [List.all_eq_true]
      intro q hq
      unfold paymentSqlConflict someEqNat
      simp
    unfold add_payment
    simp only [hne1, hne2, hp1, hf1, hp2, hf2, hdig, Bool.false_eq_true, if_false,
      Bool.and_false, Bool.false_and, hdup, hfl, if_neg hna, hins, if_true,
      weekTruthyOutOfRange]

/-- Counterexample to C5 as stated: the non-numeric week entry abc is not
rejected; the payment is written as a general row with a null week, so a row
IS added on other input. -/
theorem c5_counterexample :
    add_payment payStore ["1", "1", "abc", "25"] = some (.ok, payStoreGeneral)
    ∧ payStoreGeneral ≠ payStore := by
  constructor
  · have hc2 : Char.toNat '2' = 50 := rfl
    have hc5 : Char.toNat '5' = 53 := rfl
    unfold add_payment
    norm_num +decide [payStore, payStoreGeneral, alice, term1, yr2024, dJan, pyStrip,
      stripChars, isSpaceChar, pyInt?, pyIsdigit, isDigits, digitsVal, digitsNat, pyFloat?,
      splitOnChar, weekTruthyOutOfRange, nextId, paymentInsertOk, paymentRowOk,
      paymentSqlConflict, someEqNat, List.dropWhile_cons, List.dropWhile_nil, hc2, hc5]
  · decide

/-- Witness for C5: a good week is stored within bounds, week 25 is reported
as out of range with no write, and week 0 slips past the menu check and is
stopped only by the store constraint. -/
theorem c5_week_number_validation_witness :
    (∃ p, payStore1.payments = payStore.payments ++ [p]
      ∧ (p.week_number = none ∨ ∃ n, p.week_number = some n ∧ 1 ≤ n ∧ n ≤ 20))
    ∧ add_payment payStore ["1", "1", "25", "25"] = some (.err .badWeek, payStore)
    ∧ add_payment payStore ["1", "1", "0", "25"] = some (.dbError, payStore) := by
  have hrun1 : add_payment payStore ["1", "1", "1", "25"] = some (.ok, payStore1) := by
    have hc2 : Char.toNat '2' = 50 := rfl
    have hc5 : Char.toNat '5' = 53 := rfl
    unfold add_payment
    norm_num +decide [payStore, payStore1, alicePay, alice, term1, yr2024, dJan, pyStrip,
      stripChars, isSpaceChar, pyInt?, pyIsdigit, isDigits, digitsVal, digitsNat, pyFloat?,
      splitOnChar, weekTruthyOutOfRange, nextId, paymentInsertOk, paymentRowOk,
      paymentSqlConflict, someEqNat, List.dropWhile_cons, List.dropWhile_nil, hc2, hc5]
  refine ⟨c5_week_number_validation.1 payStore ["1", "1", "1", "25"] .ok payStore1 hrun1 rfl,
    c5_week_number_validation.2.2.1 payStore "1" "1" "25" ["25"] 1 1 alice term1
      (by decide) (by decide) (by decide) (by decide) (by decide) (by decide), ?_⟩
  have hfl : pyFloat? (pyStrip "25") = some ((1 : ℚ) * ((25 : Nat) : ℚ)) := rfl
  exact c5_week_number_validation.2.2.2.1 payStore "1" "1" "0" "25" [] 1 1 alice term1
    ((1 : ℚ) * ((25 : Nat) : ℚ)) (by decide) (by decide) (by decide) (by decide)
    (by decide) (by decide) (by decide) hfl (by norm_num)

/-- C6: a successful delete_academic_year removes the selected year, exactly
the terms referencing it, and exactly the payments referencing those terms;
drivers, attendants, buses and students are untouched. -/
theorem c6_cascade_delete (st : Store) (ins : List String) (e : Outcome) (st₂ : Store)
    (h : delete_academic_year st ins = some (e, st₂)) (hok : e = .ok) :
    ∃ year, year ∈ st.academic_years
      ∧ st₂.academic_years = st.academic_years.filter (fun z => !(z.id == year.id))
      ∧ st₂.terms = st.terms.filter (fun t => !(t.academic_year_id == some year.id))
      ∧ st₂.payments = st.payments.filter (fun p =>
          !((st.terms.filter (fun t => t.academic_year_id == some year.id)).any
            (fun t => t.id == p.term_id)))
      ∧ (∀ t ∈ st₂.terms, t.academic_year_id ≠ some year.id)
      ∧ (∀ p ∈ st.payments,
          (∀ t ∈ st.terms, t.academic_year_id = some year.id → t.id ≠ p.term_id) →
          p ∈ st₂.payments)
      ∧ (∀ p ∈ st₂.payments, p ∈ st.payments)
      ∧ st₂.drivers = st.drivers ∧ st₂.attendants = st.attendants
      ∧ st₂.buses = st.buses ∧ st₂.students = st.students := by
  subst hok
  unfold delete_academic_year at h
  repeat' first
    | split at h
    | exact Option.noConfusion h
    | (injection h with h2; injection h2 with he hst; subst hst;
       exact Outcome.noConfusion he)
    | simp only [] at h
  injection h with h2
  injection h2 with he hst
  subst hst
  rename_i yearv hfind xo o1 hconf
  refine ⟨yearv, List.mem_of_find?_eq_some hfind, rfl, rfl, rfl, ?_, ?_, ?_,
    rfl, rfl, rfl, rfl⟩
  · intro t ht
    have hm := List.mem_filter.mp ht
    intro hcon
    rw [hcon] at hm
    simp at hm
  · intro p hp hnone
    refine List.mem_filter.mpr ⟨hp, ?_⟩
    have hfa : ((st.terms.filter (fun t => t.academic_year_id == some yearv.id)).any
        (fun t => t.id == p.term_id)) = false := by
      rw [List.any_eq_false]
      intro t ht
      have hm := List.mem_filter.mp ht
      simp only [beq_iff_eq] at hm
      intro hbeq
      exact hnone t hm.1 hm.2 (by rwa [beq_iff_eq] at hbeq)
    rw [hfa]
    rfl
  · intro p hp
    exact List.mem_of_mem_filter hp

/-- Witness for C6: deleting year 2024/2025 from the two-year store removes
its two terms and their payments while the second subtree and the students
survive. -/
theorem c6_cascade_delete_witness :
    delete_academic_year cascadeStore ["1", "y"] = some (.ok, cascadeStoreAfter)
    ∧ ∃ year, year ∈ cascadeStore.academic_years
      ∧ cascadeStoreAfter.academic_years
          = cascadeStore.academic_years.filter (fun z => !(z.id == year.id))
      ∧ cascadeStoreAfter.students = cascadeStore.students :=
  ⟨by decide, by
    obtain ⟨year, hmem, hy, h3, h4, h5, h6, h7, h8, h9, h10, hstu⟩ :=
      c6_cascade_delete cascadeStore ["1", "y"] .ok cascadeStoreAfter (by decide) rfl
    exact ⟨year, hmem, hy, hstu⟩⟩

/-- C7: a successful delete_driver or delete_attendant removes only the
selected person; every bus survives with every field unchanged except that a
reference to the deleted person is cleared to null, and students are never
touched. -/
theorem c7_nullify_on_delete :
    (∀ st ins e st₂, delete_driver st ins = some (e, st₂) → e = .ok →
      ∃ driver, driver ∈ st.drivers
        ∧ st₂.drivers = st.drivers.filter (fun d => !(d.id == driver.id))
        ∧ st₂.buses.length = st.buses.length
        ∧ (∀ b ∈ st.buses, ∃ b2 ∈ st₂.buses, b2.id = b.id ∧ b2.bus_name = b.bus_name
            ∧ b2.plate_number = b.plate_number ∧ b2.capacity = b.capacity
            ∧ b2.attendant_id = b.attendant_id
            ∧ (b.driver_id = some driver.id → b2.driver_id = none)
            ∧ (b.driver_id ≠ some driver.id → b2.driver_id = b.driver_id))
        ∧ st₂.students = st.students ∧ st₂.attendants = st.attendants
        ∧ st₂.academic_years = st.academic_years ∧ st₂.terms = st.terms
        ∧ st₂.payments = st.payments)
    ∧ (∀ st ins e st₂, delete_attendant st ins = some (e, st₂) → e = .ok →
      ∃ attendant, attendant ∈ st.attendants
        ∧ st₂.attendants = st.attendants.filter (fun a => !(a.id == attendant.id))
        ∧ st₂.buses.length = st.buses.length
        ∧ (∀ b ∈ st.buses, ∃ b2 ∈ st₂.buses, b2.id = b.id ∧ b2.bus_name = b.bus_name
            ∧ b2.plate_number = b.plate_number ∧ b2.capacity = b.capacity
            ∧ b2.driver_id = b.driver_id
            ∧ (b.attendant_id = some attendant.id → b2.attendant_id = none)
            ∧ (b.attendant_id ≠ some attendant.id → b2.attendant_id = b.attendant_id))
        ∧ st₂.students = st.students ∧ st₂.drivers = st.drivers
        ∧ st₂.academic_years = st.academic_years ∧ st₂.terms = st.terms
        ∧ st₂.payments = st.payments) := by
  constructor
  · intro st ins e st₂ h hok
    subst hok
    unfold delete_driver at h
    repeat' first
      | split at h
      | exact Option.noConfusion h
      | (injection h with h2; injection h2 with he hst; subst hst;
         exact Outcome.noConfusion he)
      | simp only [] at h
    injection h with h2
    injection h2 with he hst
    subst hst
    rename_i driverv hfind xo o1 hconf
    refine ⟨driverv, List.mem_of_find?_eq_some hfind, rfl, List.length_map _ _, ?_,
      rfl, rfl, rfl, rfl, rfl⟩
    intro b hb
    refine ⟨if b.driver_id == some driverv.id then { b with driver_id := none } else b,
      List.mem_map_of_mem _ hb, ?_⟩
    by_cases hbd : b.driver_id = some driverv.id
    · rw [if_pos (by rw [hbd]; exact beq_self_eq_true _)]
      exact ⟨rfl, rfl, rfl, rfl, rfl, fun _ => rfl, fun hc => absurd hbd hc⟩
    · rw [if_neg (fun hc => hbd (by rwa [beq_iff_eq] at hc))]
      exact ⟨rfl, rfl, rfl, rfl, rfl, fun hc => absurd hc hbd, fun _ => rfl⟩
  · intro st ins e st₂ h hok
    subst hok
    unfold delete_attendant at h
    repeat' first
      | split at h
      | exact Option.noConfusion h
      | (injection h with h2; injection h2 with he hst; subst hst;
         exact Outcome.noConfusion he)
      | simp only [] at h
    injection h with h2
    injection h2 with he hst
    subst hst
    rename_i attendantv hfind xo o1 hconf
    refine ⟨attendantv, List.mem_of_find?_eq_some hfind, rfl, List.length_map _ _, ?_,
      rfl, rfl, rfl, rfl, rfl⟩
    intro b hb
    refine ⟨if b.attendant_id == some attendantv.id then { b with attendant_id := none } else b,
      List.mem_map_of_mem _ hb, ?_⟩
    by_cases hbd : b.attendant_id = some attendantv.id
    · rw [if_pos (by rw [hbd]; exact beq_self_eq_true _)]
      exact ⟨rfl, rfl, rfl, rfl, rfl, fun _ => rfl, fun hc => absurd hbd hc⟩
    · rw [if_neg (fun hc => hbd (by rwa [beq_iff_eq] at hc))]
      exact ⟨rfl, rfl, rfl, rfl, rfl, fun hc => absurd hc hbd, fun _ => rfl⟩

/-- Witness for C7: deleting driver 1 and attendant 1 from the fleet store
keeps both buses and the student, clearing only the matching references. -/
theorem c7_nullify_on_delete_witness :
    delete_driver fleetStore ["1", "y"] = some (.ok, fleetStoreNoD1)
    ∧ delete_attendant fleetStore ["1", "y"] = some (.ok, fleetStoreNoA1)
    ∧ (∃ driver, driver ∈ fleetStore.drivers
        ∧ fleetStoreNoD1.drivers = fleetStore.drivers.filter (fun d => !(d.id == driver.id))
        ∧ fleetStoreNoD1.students = fleetStore.students)
    ∧ (∃ attendant, attendant ∈ fleetStore.attendants
        ∧ fleetStoreNoA1.drivers = fleetStore.drivers) := by
  have h1 : delete_driver fleetStore ["1", "y"] = some (.ok, fleetStoreNoD1) := by decide
  have h2 : delete_attendant fleetStore ["1", "y"] = some (.ok, fleetStoreNoA1) := by decide
  obtain ⟨d, hd1, hd2, hd3, hd4, hstu, hd6, hd7, hd8, hd9⟩ :=
    c7_nullify_on_delete.1 fleetStore ["1", "y"] .ok fleetStoreNoD1 h1 rfl
  obtain ⟨a, ha1, ha2, ha3, ha4, ha5, hadrv, ha7, ha8, ha9⟩ :=
    c7_nullify_on_delete.2 fleetStore ["1", "y"] .ok fleetStoreNoA1 h2 rfl
  exact ⟨h1, h2, ⟨d, hd1, hd2, hstu⟩, ⟨a, ha1, hadrv⟩⟩

/-- The commit of edit_term never reports a date-order rejection with a
changed store. -/
theorem edit_term_commit_dateOrder (st : Store) (term : Term) (nn : String)
    (sd ed : PyDate) (yid : Option Nat) (e : Outcome) (st₂ : Store)
    (h : edit_term_commit st term nn sd ed yid = some (e, st₂)) :
    e = .err .dateOrder → st₂ = st := by
  unfold edit_term_commit at h
  repeat' first
    | split at h
    | exact Option.noConfusion h
    | (injection h with h2; injection h2 with he hst; subst hst; subst he;
       first | exact fun hx => rfl | exact fun hx => Outcome.noConfusion hx)
    | simp only [] at h

/-- The reassignment stage of edit_term never reports a date-order rejection
with a changed store. -/
theorem edit_term_reassign_dateOrder (st : Store) (term : Term) (nn : String)
    (sd ed : PyDate) (ins : List String) (e : Outcome) (st₂ : Store)
    (h : edit_term_reassign st term nn sd ed ins = some (e, st₂)) :
    e = .err .dateOrder → st₂ = st := by
  unfold edit_term_reassign at h
  repeat' first
    | split at h
    | exact Option.noConfusion h
    | exact edit_term_commit_dateOrder _ _ _ _ _ _ _ _ h
    | (injection h with h2; injection h2 with he hst; subst hst; subst he;
       first | exact fun hx => rfl | exact fun hx => Outcome.noConfusion hx)
    | simp only [] at h

/-- C8: every reachable store has strictly ordered dates on all academic year
and term rows; a date-order rejection in any of the four create and edit
operations leaves the store unchanged, and supplying an end date not after
the start date in any of them is reported as exactly that rejection. -/
theorem c8_date_order :
    (∀ st, ReachableStore st → datesOk st)
    ∧ (∀ st ins e st₂, add_academic_year st ins = some (e, st₂) →
        e = .err .dateOrder → st₂ = st)
    ∧ (∀ st ins e st₂, edit_academic_year st ins = some (e, st₂) →
        e = .err .dateOrder → st₂ = st)
    ∧ (∀ st ins e st₂, add_term st ins = some (e, st₂) → e = .err .dateOrder → st₂ = st)
    ∧ (∀ st ins e st₂, edit_term st ins = some (e, st₂) → e = .err .dateOrder → st₂ = st)
    ∧ (∀ (st : Store) (ins ins1 ins2 ins3 : List String) (name s_str e_str : String)
        (sd ed : PyDate),
        get_valid_input vNonempty ins = some (.value name, ins1) →
        get_valid_input is_date ins1 = some (.value s_str, ins2) →
        get_valid_input is_date ins2 = some (.value e_str, ins3) →
        parseDate? s_str = some sd → parseDate? e_str = some ed → ed.key ≤ sd.key →
        add_academic_year st ins = some (.err .dateOrder, st))
    ∧ (∀ (st : Store) (ins ins1 ins2 ins3 ins4 : List String)
        (yid_str name s_str e_str : String) (year : AcademicYear) (sd ed : PyDate),
        get_valid_input (fun x => pyIsdigit x
          && st.academic_years.any (fun y => y.id == digitsNat x)) ins
          = some (.value yid_str, ins1) →
        st.academic_years.find? (fun y => y.id == digitsNat yid_str) = some year →
        get_valid_input vNonempty ins1 = some (.value name, ins2) →
        get_valid_input is_date ins2 = some (.value s_str, ins3) →
        get_valid_input is_date ins3 = some (.value e_str, ins4) →
        parseDate? s_str = some sd → parseDate? e_str = some ed → ed.key ≤ sd.key →
        add_term st ins = some (.err .dateOrder, st))
    ∧ (∀ (st : Store) (ins ins1 ins2 ins3 ins4 : List String)
        (yid_str s_str e_str : String) (year : AcademicYear) (r1 : ReadOut)
        (sd ed : PyDate),
        get_valid_input (fun x => pyIsdigit x
          && st.academic_years.any (fun y => y.id == digitsNat x)) ins
          = some (.value yid_str, ins1) →
        st.academic_years.find? (fun y => y.id == digitsNat yid_str) = some year →
        get_valid_input (fun x => !(pyStrip x).data.isEmpty || !year.name.data.isEmpty) ins1
          = some (r1, ins2) →
        get_valid_input is_date ins2 = some (.value s_str, ins3) →
        get_valid_input is_date ins3 = some (.value e_str, ins4) →
        parseDate? s_str = some sd → parseDate? e_str = some ed → ed.key ≤ sd.key →
        edit_academic_year st ins = some (.err .dateOrder, st))
    ∧ (∀ (st : Store) (ins ins1 ins2 ins3 ins4 : List String)
        (tid_str s_str e_str : String) (term : Term) (r1 : ReadOut) (sd ed : PyDate),
        get_valid_input (fun x => pyIsdigit x
          && st.terms.any (fun t => t.id == digitsNat x)) ins
          = some (.value tid_str, ins1) →
        st.terms.find? (fun t => t.id == digitsNat tid_str) = some term →
        get_valid_input (fun x => !(pyStrip x).data.isEmpty || !term.name.data.isEmpty) ins1
          = some (r1, ins2) →
        get_valid_input is_date ins2 = some (.value s_str, ins3) →
        get_valid_input is_date ins3 = some (.value e_str, ins4) →
        parseDate? s_str = some sd → parseDate? e_str = some ed → ed.key ≤ sd.key →
        edit_term st ins = some (.err .dateOrder, st)) := by
  refine ⟨?_, ?_, ?_, ?_, ?_, ?_, ?_, ?_, ?_⟩
  · intro st hr
    exact (reachable_invariants st hr).2.2
  · intro st ins e st₂ h
    unfold add_academic_year at h
    repeat' first
      | split at h
      | exact Option.noConfusion h
      | (injection h with h2; injection h2 with he hst; subst hst; subst he;
         first | exact fun hx => rfl | exact fun hx => Outcome.noConfusion hx)
      | simp only [] at h
  · intro st ins e st₂ h
    unfold edit_academic_year at h
    repeat' first
      | split at h
      | exact Option.noConfusion h
      | (injection h with h2; injection h2 with he hst; subst hst; subst he;
         first | exact fun hx => rfl | exact fun hx => Outcome.noConfusion hx)
      | simp only [] at h
  · intro st ins e st₂ h
    unfold add_term at h
    repeat' first
      | split at h
      | exact Option.noConfusion h
      | (injection h with h2; injection h2 with he hst; subst hst; subst he;
         first | exact fun hx => rfl | exact fun hx => Outcome.noConfusion hx)
      | simp only [] at h
  · intro st ins e st₂ h
    unfold edit_term at h
    repeat' first
      | split at h
      | exact Option.noConfusion h
      | exact edit_term_reassign_dateOrder _ _ _ _ _ _ _ _ h
      | (injection h with h2; injection h2 with he hst; subst hst; subst he;
         first | exact fun hx => rfl | exact fun hx => Outcome.noConfusion hx)
      | simp only [] at h
  · intro st ins ins1 ins2 ins3 name s_str e_str sd ed h1 h2 h3 h4 h5 hle
    unfold add_academic_year
    simp only [h1, h2, h3, h4, h5]
    rw [if_pos hle]
  · intro st ins ins1 ins2 ins3 ins4 yid_str name s_str e_str year sd ed
      h1 h2 h3 h4 h5 h6 h7 hle
    have hne : st.academic_years.isEmpty = false := by
      cases hs : st.academic_years with
      | nil => rw [hs] at h2; exact Option.noConfusion h2
      | cons a l => rfl
    unfold add_term
    simp only [hne, Bool.false_eq_true, if_false, h1, h2, h3, h4, h5, h6, h7]
    rw [if_pos hle]
  · intro st ins ins1 ins2 ins3 ins4 yid_str s_str e_str year r1 sd ed
      h1 h2 h3 h4 h5 h6 h7 hle
    have hne : st.academic_years.isEmpty = false := by
      cases hs : st.academic_years with
      | nil => rw [hs] at h2; exact Option.noConfusion h2
      | cons a l => rfl
    unfold edit_academic_year
    simp only [hne, Bool.false_eq_true, if_false, h1, h2, h3, h4, h5, h6, h7]
    rw [if_pos hle]
  · intro st ins ins1 ins2 ins3 ins4 tid_str s_str e_str term r1 sd ed
      h1 h2 h3 h4 h5 h6 h7 hle
    have hne : st.terms.isEmpty = false := by
      cases hs : st.terms with
      | nil => rw [hs] at h2; exact Option.noConfusion h2
      | cons a l => rfl
    unfold edit_term
    simp only [hne, Bool.false_eq_true, if_false, h1, h2, h3, h4, h5, h6, h7]
    rw [if_pos hle]

/-- Witness for C8: the empty store satisfies the date invariant, and an
academic year whose end date precedes its start date is rejected with the
store unchanged. -/
theorem c8_date_order_witness :
    datesOk (emptyStore dJan)
    ∧ add_academic_year (emptyStore dJan) ["Y", "2024-12-31", "2024-01-01"]
        = some (.err .dateOrder, emptyStore dJan) :=
  ⟨c8_date_order.1 (emptyStore dJan) ⟨dJan, Relation.ReflTransGen.refl⟩,
    c8_date_order.2.2.2.2.2.1 (emptyStore dJan) ["Y", "2024-12-31", "2024-01-01"]
      ["2024-12-31", "2024-01-01"] ["2024-01-01"] [] "Y" "2024-12-31" "2024-01-01"
      ⟨2024, 12, 31⟩ ⟨2024, 1, 1⟩ (by decide) (by decide) (by decide) (by decide)
      (by decide) (by decide)⟩
